import Mathlib

/-!
Verification of model-sse-proxy: request translation and response relay.

A shallow embedding of `models.go` (`ConvertOpenAIToPrivateAPI`,
`convertToTextRequest`, `convertToMultiModalRequest`) and of the two relay
branches of `openAIProxyHandler` in `main.go`, followed by the properties
established about them.

Conventions of the embedding:

* a Go `interface{}` value produced by `encoding/json` is a `JValue`;
* a Go pointer that may be `nil` is an `Option`;
* a Go call returns a `GoResult`: a value, an `error`, or a run-time panic;
* a `for ... range` loop that appends to a slice is a recursion over the
  ranged list that threads the slice built so far.
-/

set_option autoImplicit false

namespace SSEProxy

/-! ## Values decoded by `encoding/json` into `interface{}` -/

/-- The dynamic values `json.Unmarshal` stores in an `interface{}`: `nil`,
`bool`, `float64`, `string`, `[]interface{}` and `map[string]interface{}`.
The payload of a number is never inspected by this program. A map is given by
its bindings; `mapIndex` reads a key. -/
inductive JValue where
  | null
  | bool (b : Bool)
  | num (n : Int)
  | str (s : String)
  | arr (items : List JValue)
  | obj (bindings : List (String × JValue))

/-- Outcome of a Go call: normal return of a value, return of a non-nil
`error` (made by `errors.New`, identified by its text), or a run-time panic. -/
inductive GoResult (α : Type) where
  | ok (v : α)
  | err (msg : String)
  | panic (msg : String)
  deriving DecidableEq, Repr

/-- The call returned a value and a nil error. -/
def GoResult.isOk {α : Type} : GoResult α → Bool
  | .ok _ => true
  | _ => false

/-- The call returned a non-nil error (and returned normally). -/
def GoResult.isErr {α : Type} : GoResult α → Bool
  | .err _ => true
  | _ => false

/-- The call did not return: it panicked. -/
def GoResult.isPanic {α : Type} : GoResult α → Bool
  | .panic _ => true
  | _ => false

/-- Go map indexing `m[key]` on a `map[string]interface{}`: the bound value, or
nothing when the key is absent. -/
def mapIndex (m : List (String × JValue)) (key : String) : Option JValue :=
  m.lookup key

/-- The checked type assertion `v.(string)` in its two-result form, applied to
the result of a map index: the string when the key is bound to a string. -/
def assertString : Option JValue → Option String
  | some (.str s) => some s
  | _ => none

/-- The checked type assertion `v.(map[string]interface{})` in its two-result
form, applied to the result of a map index. -/
def assertMap : Option JValue → Option (List (String × JValue))
  | some (.obj m) => some m
  | _ => none

/-! ## Data model of `models.go` and `config.go` -/

/-- The fields of `Config` read by the translation. -/
structure Config where
  TargetBaseURL : String
  DefaultAgentID : String
  DefaultSecretKey : String
  ServerAddress : String
  ModelMap : Option (List (String × String))
  LogDirectory : String
  deriving DecidableEq, Repr

/-- Go type `OpenAIInput`. -/
structure OpenAIInput where
  Role : String
  Content : JValue

/-- Go type `OpenAIRequest`. -/
structure OpenAIRequest where
  Model : String
  Messages : List OpenAIInput
  Stream : Bool

/-- Go type `PrivateAPIImageURL`. -/
structure PrivateAPIImageURL where
  URL : String
  deriving DecidableEq, Repr

/-- Go type `PrivateAPIContentItem`; `ImageURL` is a pointer. The Go field
`Type` is written `Type_` (`Type` is reserved in Lean). -/
structure PrivateAPIContentItem where
  Type_ : String
  Text : String
  ImageURL : Option PrivateAPIImageURL
  deriving DecidableEq, Repr

/-- Go type `PrivateAPIMessage`. -/
structure PrivateAPIMessage where
  Role : String
  Content : List PrivateAPIContentItem
  deriving DecidableEq, Repr

/-- Go type `PrivateAPITextRequest`. -/
structure PrivateAPITextRequest where
  AgentID : String
  SecretKey : String
  ServiceName : String
  Messages : List PrivateAPIMessage
  Stream : Bool
  deriving DecidableEq, Repr

/-- Go type `PrivateAPIMultiModalRequest`. -/
structure PrivateAPIMultiModalRequest where
  AgentID : String
  SecretKey : String
  ServiceName : String
  Stream : Bool
  Messages : List PrivateAPIMessage
  deriving DecidableEq, Repr

/-- The dynamic type of the `interface{}` returned by
`ConvertOpenAIToPrivateAPI`: one of the two request shapes. -/
inductive PrivateAPIRequest where
  | text (r : PrivateAPITextRequest)
  | multiModal (r : PrivateAPIMultiModalRequest)
  deriving DecidableEq, Repr

namespace PrivateAPIRequest

/-- The result is a `*PrivateAPIMultiModalRequest`. -/
def isMultiModal : PrivateAPIRequest → Bool
  | .multiModal _ => true
  | .text _ => false

/-- The result is a `*PrivateAPITextRequest`. -/
def isText : PrivateAPIRequest → Bool
  | .text _ => true
  | .multiModal _ => false

/-- The `Messages` field of either shape. -/
def messages : PrivateAPIRequest → List PrivateAPIMessage
  | .text r => r.Messages
  | .multiModal r => r.Messages

/-- The `ServiceName` field of either shape. -/
def serviceName : PrivateAPIRequest → String
  | .text r => r.ServiceName
  | .multiModal r => r.ServiceName

/-- The `AgentID` field of either shape. -/
def agentID : PrivateAPIRequest → String
  | .text r => r.AgentID
  | .multiModal r => r.AgentID

/-- The `SecretKey` field of either shape. -/
def secretKey : PrivateAPIRequest → String
  | .text r => r.SecretKey
  | .multiModal r => r.SecretKey

/-- The `Stream` field of either shape. -/
def stream : PrivateAPIRequest → Bool
  | .text r => r.Stream
  | .multiModal r => r.Stream

end PrivateAPIRequest

/-! ## Error and panic texts -/

/-- Error of `ConvertOpenAIToPrivateAPI` on a nil request. -/
def errInvalidRequest : String := "无效的OpenAI请求"

/-- Error of both converters on an empty message list. -/
def errEmptyMessages : String := "输入内容为空"

/-- Error of both converters on a content that is neither a string nor an
array. -/
def errUnsupportedContent : String := "不支持的消息内容格式"

/-- Text of the panic raised by a failed single-result type assertion
`v.(string)`. -/
def panicTypeAssertion : String := "interface conversion: interface is not string"

/-- Text of the panic raised by a field access through a nil pointer. -/
def panicNilDeref : String := "invalid memory address or nil pointer dereference"

/-! ## `ConvertOpenAIToPrivateAPI`: image detection (models.go 134-152) -/

/-- Body of the inner detection loop at one array element: the element is a
map whose `"type"` is the string `"input_image"` (both assertions checked). -/
def hasImage_item (item : JValue) : Bool :=
  match item with
  | .obj contentMap =>
    match assertString (mapIndex contentMap "type") with
    | some contentType => contentType == "input_image"
    | none => false
  | _ => false

/-- Inner detection loop over one content array; it stops (`break`) at the
first element that sets `hasImage`. -/
def hasImage_array : List JValue → Bool
  | [] => false
  | item :: rest => if hasImage_item item then true else hasImage_array rest

/-- Outer detection loop over the messages; only array contents are scanned
and the loop stops at the first message that sets `hasImage`. -/
def hasImage : List OpenAIInput → Bool
  | [] => false
  | message :: rest =>
    match message.Content with
    | .arr contentArray =>
      if hasImage_array contentArray then true else hasImage rest
    | _ => hasImage rest

/-! ## `convertToTextRequest` (models.go 163-217) -/

/-- Lines 185-195: the content item built from one map element. The
assertion `contentMap["type"].(string)` is the single-result form and panics
when `"type"` is absent or not a string; the other assertions are checked. -/
def convertToTextRequest_item (contentMap : List (String × JValue)) :
    GoResult PrivateAPIContentItem :=
  match assertString (mapIndex contentMap "type") with
  | none => .panic panicTypeAssertion
  | some type_ =>
    let contentItem : PrivateAPIContentItem :=
      { Type_ := type_, Text := "", ImageURL := none }
    let contentItem :=
      match assertString (mapIndex contentMap "text") with
      | some text => { contentItem with Text := text }
      | none => contentItem
    let contentItem :=
      match assertMap (mapIndex contentMap "image_url") with
      | some imageURL =>
        match assertString (mapIndex imageURL "url") with
        | some url => { contentItem with ImageURL := some { URL := url } }
        | none => contentItem
      | none => contentItem
    .ok contentItem

/-- Lines 183-198: the loop over a content array, threading `contentItems`.
Elements that are not maps are passed over. -/
def convertToTextRequest_items :
    List JValue → List PrivateAPIContentItem → GoResult (List PrivateAPIContentItem)
  | [], contentItems => .ok contentItems
  | item :: rest, contentItems =>
    match item with
    | .obj contentMap =>
      match convertToTextRequest_item contentMap with
      | .ok contentItem => convertToTextRequest_items rest (contentItems ++ [contentItem])
      | .err e => .err e
      | .panic p => .panic p
    | _ => convertToTextRequest_items rest contentItems

/-- Lines 172-201: the type switch on one message content, starting from the
nil slice `contentItems`. -/
def convertToTextRequest_content (content : JValue) :
    GoResult (List PrivateAPIContentItem) :=
  match content with
  | .str s => .ok ([] ++ [{ Type_ := "text", Text := s, ImageURL := none }])
  | .arr items => convertToTextRequest_items items []
  | _ => .err errUnsupportedContent

/-- Lines 170-208: the loop over the messages, threading `messages`; the first
error or panic ends the call. -/
def convertToTextRequest_messages :
    List OpenAIInput → List PrivateAPIMessage → GoResult (List PrivateAPIMessage)
  | [], messages => .ok messages
  | message :: rest, messages =>
    match convertToTextRequest_content message.Content with
    | .ok contentItems =>
      convertToTextRequest_messages rest
        (messages ++ [{ Role := message.Role, Content := contentItems }])
    | .err e => .err e
    | .panic p => .panic p

/-- Go function `convertToTextRequest`. Both pointers are dereferenced without
a nil check: `openAIReq` at once, `config` when the result is built. -/
def convertToTextRequest (openAIReq : Option OpenAIRequest) (serviceName : String)
    (config : Option Config) : GoResult PrivateAPITextRequest :=
  match openAIReq with
  | none => .panic panicNilDeref
  | some req =>
    if req.Messages.length = 0 then .err errEmptyMessages
    else
      match convertToTextRequest_messages req.Messages [] with
      | .ok messages =>
        match config with
        | none => .panic panicNilDeref
        | some cfg =>
          .ok { AgentID := cfg.DefaultAgentID
                SecretKey := cfg.DefaultSecretKey
                ServiceName := serviceName
                Messages := messages
                Stream := req.Stream }
      | .err e => .err e
      | .panic p => .panic p

/-! ## `convertToMultiModalRequest` (models.go 220-274) -/

/-- Lines 242-252: the content item built from one map element. -/
def convertToMultiModalRequest_item (contentMap : List (String × JValue)) :
    GoResult PrivateAPIContentItem :=
  match assertString (mapIndex contentMap "type") with
  | none => .panic panicTypeAssertion
  | some type_ =>
    let contentItem : PrivateAPIContentItem :=
      { Type_ := type_, Text := "", ImageURL := none }
    let contentItem :=
      match assertString (mapIndex contentMap "text") with
      | some text => { contentItem with Text := text }
      | none => contentItem
    let contentItem :=
      match assertMap (mapIndex contentMap "image_url") with
      | some imageURL =>
        match assertString (mapIndex imageURL "url") with
        | some url => { contentItem with ImageURL := some { URL := url } }
        | none => contentItem
      | none => contentItem
    .ok contentItem

/-- Lines 240-255: the loop over a content array. -/
def convertToMultiModalRequest_items :
    List JValue → List PrivateAPIContentItem → GoResult (List PrivateAPIContentItem)
  | [], contentItems => .ok contentItems
  | item :: rest, contentItems =>
    match item with
    | .obj contentMap =>
      match convertToMultiModalRequest_item contentMap with
      | .ok contentItem =>
        convertToMultiModalRequest_items rest (contentItems ++ [contentItem])
      | .err e => .err e
      | .panic p => .panic p
    | _ => convertToMultiModalRequest_items rest contentItems

/-- Lines 229-258: the type switch on one message content. -/
def convertToMultiModalRequest_content (content : JValue) :
    GoResult (List PrivateAPIContentItem) :=
  match content with
  | .str s => .ok ([] ++ [{ Type_ := "text", Text := s, ImageURL := none }])
  | .arr items => convertToMultiModalRequest_items items []
  | _ => .err errUnsupportedContent

/-- Lines 227-265: the loop over the messages. -/
def convertToMultiModalRequest_messages :
    List OpenAIInput → List PrivateAPIMessage → GoResult (List PrivateAPIMessage)
  | [], messages => .ok messages
  | message :: rest, messages =>
    match convertToMultiModalRequest_content message.Content with
    | .ok contentItems =>
      convertToMultiModalRequest_messages rest
        (messages ++ [{ Role := message.Role, Content := contentItems }])
    | .err e => .err e
    | .panic p => .panic p

/-- Go function `convertToMultiModalRequest`. -/
def convertToMultiModalRequest (openAIReq : Option OpenAIRequest) (serviceName : String)
    (config : Option Config) : GoResult PrivateAPIMultiModalRequest :=
  match openAIReq with
  | none => .panic panicNilDeref
  | some req =>
    if req.Messages.length = 0 then .err errEmptyMessages
    else
      match convertToMultiModalRequest_messages req.Messages [] with
      | .ok messages =>
        match config with
        | none => .panic panicNilDeref
        | some cfg =>
          .ok { AgentID := cfg.DefaultAgentID
                SecretKey := cfg.DefaultSecretKey
                ServiceName := serviceName
                Stream := req.Stream
                Messages := messages }
      | .err e => .err e
      | .panic p => .panic p

/-! ## `ConvertOpenAIToPrivateAPI` (models.go 121-160) -/

/-- Lines 127-132: the service name is the mapped name when `ModelMap` is
non-nil and binds the model, and the model name otherwise. -/
def resolveServiceName (model : String) (modelMap : Option (List (String × String))) :
    String :=
  match modelMap with
  | none => model
  | some m =>
    match m.lookup model with
    | some mappedName => mappedName
    | none => model

/-- Storing a converter's result in the `interface{}` result of
`ConvertOpenAIToPrivateAPI`. -/
def GoResult.wrap {α β : Type} (f : α → β) : GoResult α → GoResult β
  | .ok v => .ok (f v)
  | .err e => .err e
  | .panic p => .panic p

/-- Go function `ConvertOpenAIToPrivateAPI`. A nil request is an error; a nil
`config` is dereferenced at `config.ModelMap`. -/
def ConvertOpenAIToPrivateAPI (openAIReq : Option OpenAIRequest)
    (config : Option Config) : GoResult PrivateAPIRequest :=
  match openAIReq with
  | none => .err errInvalidRequest
  | some req =>
    match config with
    | none => .panic panicNilDeref
    | some cfg =>
      let serviceName := resolveServiceName req.Model cfg.ModelMap
      if hasImage req.Messages then
        (convertToMultiModalRequest (some req) serviceName (some cfg)).wrap
          PrivateAPIRequest.multiModal
      else
        (convertToTextRequest (some req) serviceName (some cfg)).wrap
          PrivateAPIRequest.text

/-! ## Data model of the relay (models.go 8-58) -/

/-- Go type `Delta`. -/
structure Delta where
  Content : String
  deriving DecidableEq, Repr

/-- Go type `Message`. -/
structure Message where
  Role : String
  Content : String
  deriving DecidableEq, Repr

/-- Go type `PromptTokensDetails`. -/
structure PromptTokensDetails where
  CachedTokens : Int
  deriving DecidableEq, Repr

/-- Go type `Usage`; it is held by value in `OpenAISSEResponse`. -/
structure Usage where
  PromptTokens : Int
  CompletionTokens : Int
  TotalTokens : Int
  PromptTokensDetails : PromptTokensDetails
  PromptCacheHitTokens : Int
  PromptCacheMissTokens : Int
  deriving DecidableEq, Repr

/-- Go type `Choice`; `LogProbs` and `FinishReason` are pointers. -/
structure Choice where
  Index : Int
  Message : Message
  Delta : Delta
  LogProbs : Option String
  FinishReason : Option String
  deriving DecidableEq, Repr

/-- Go type `OpenAISSEResponse`. -/
structure OpenAISSEResponse where
  ID : String
  Object : String
  Created : Int
  Model : String
  SystemFingerprint : String
  Choices : List Choice
  Usage : Usage
  deriving DecidableEq, Repr

/-- Go type `PrivateAPISSEResponse`. -/
structure PrivateAPISSEResponse where
  Success : Bool
  Code : Int
  ErrorMessage : Option String
  ErrorDetail : Option String
  RequestId : Option String
  ResponseId : Option String
  ResponseMessage : String
  Data : JValue

/-- The zero value of `Message`, left in a `Choice` that sets only `Delta`. -/
def Message.zero : Message := { Role := "", Content := "" }

/-- The zero value of `Delta`, left in a `Choice` that sets only `Message`. -/
def Delta.zero : Delta := { Content := "" }

/-- The zero value of `Usage`, left in a response that does not set it. -/
def Usage.zero : Usage :=
  { PromptTokens := 0, CompletionTokens := 0, TotalTokens := 0
    PromptTokensDetails := { CachedTokens := 0 }
    PromptCacheHitTokens := 0, PromptCacheMissTokens := 0 }

/-! ## Functions of package `strings` used by the relay -/

/-- Go `strings.HasPrefix(s, prefix)`: `s` begins with `prefix`. -/
def HasPrefix (s pre : String) : Bool :=
  pre.data.isPrefixOf s.data

/-- Go `strings.TrimPrefix(s, prefix)`: `s` without the leading `prefix`, and
`s` unchanged when it does not begin with `prefix`. -/
def TrimPrefix (s pre : String) : String :=
  if HasPrefix s pre then String.mk (s.data.drop pre.data.length) else s

/-- Pieces of a character list between the occurrences of `sep`: one piece more
than there are occurrences, empty pieces included. -/
def splitChars (sep : Char) : List Char → List (List Char)
  | [] => [[]]
  | c :: cs =>
    if c = sep then [] :: splitChars sep cs
    else
      match splitChars sep cs with
      | [] => [[c]]
      | piece :: pieces => (c :: piece) :: pieces

/-- Go `strings.Split(s, sep)` for a separator of one character, the case the
relay calls (`sep` is the space). -/
def Split (s : String) (sep : Char) : List String :=
  (splitChars sep s.data).map String.mk

/-! ## Streaming relay (main.go 134-203) -/

/-- Lines 165-181: the chunk built for one parsed backend frame. `Message` and
`Usage` are not set and keep their zero values. -/
def streamChunk (sessionId : String) (created : Int) (privateResp : PrivateAPISSEResponse) :
    OpenAISSEResponse :=
  { ID := sessionId
    Object := "chat.completion.chunk"
    Created := created
    Model := "deepseek-chat"
    SystemFingerprint := "fp_8802369eaa_prod0425fp8"
    Choices :=
      [ { Index := 0
          Message := Message.zero
          Delta := { Content := privateResp.ResponseMessage }
          LogProbs := none
          FinishReason := none } ]
    Usage := Usage.zero }

/-- Line 189: the bytes `fmt.Fprintf(w, "data: %s\n\n", json)` writes. -/
def sseEvent (openAIRespJSON : String) : String :=
  "data: " ++ openAIRespJSON ++ "\n\n"

/-- State of the relay loop: the accumulated `fullResponse` and the events
written to (and flushed on) the caller's connection, oldest first. -/
structure RelayState where
  fullResponse : String
  written : List String
  deriving DecidableEq, Repr

/-- The state before the first line is scanned. -/
def RelayState.init : RelayState := { fullResponse := "", written := [] }

/-- Lines 149-191: one iteration of the relay loop on a scanned line.
`unmarshal` is `json.Unmarshal` into a fresh `PrivateAPISSEResponse` and
`marshal` is `json.Marshal` of the chunk; each gives nothing when it returns an
error. An empty line, a line without the `data:` prefix, a payload that does
not parse and a chunk that does not serialize write nothing (`continue`). -/
def relayLine (unmarshal : String → Option PrivateAPISSEResponse)
    (marshal : OpenAISSEResponse → Option String) (sessionId : String) (created : Int)
    (st : RelayState) (line : String) : RelayState :=
  if line = "" then st
  else if HasPrefix line "data:" then
    let jsonData := TrimPrefix line "data:"
    match unmarshal jsonData with
    | none => st
    | some privateResp =>
      let st := { st with fullResponse := st.fullResponse ++ privateResp.ResponseMessage }
      let openAIResp := streamChunk sessionId created privateResp
      match marshal openAIResp with
      | none => st
      | some openAIRespJSON => { st with written := st.written ++ [sseEvent openAIRespJSON] }
  else st

/-! ### The scanner (main.go 141, 148-149)

`bufio.NewScanner(targetResp.Body)` scans lines (`bufio.ScanLines`) through a
buffer that grows to `bufio.MaxScanTokenSize` bytes and no further, since
`scanner.Buffer` is never called. The backend body is given as its raw lines:
the byte strings between consecutive newlines, each ended by a newline, a
carriage return before the newline still in place. -/

/-- Go constant `bufio.MaxScanTokenSize`. -/
def MaxScanTokenSize : Nat := 64 * 1024

/-- Function `dropCR` of `bufio.ScanLines`: a final carriage return is dropped
from the line. -/
def dropCR (raw : String) : String :=
  if raw.data.getLast? = some '\r' then String.mk raw.data.dropLast else raw

/-- One `scanner.Scan()` followed by `scanner.Text()` on the next raw line. The
line and its newline must fit the buffer: a raw line of `MaxScanTokenSize`
bytes or more makes `Scan` return false (`bufio.ErrTooLong`), which gives
nothing here; otherwise the text is the line without its carriage return. -/
def Scan (raw : String) : Option String :=
  if raw.utf8ByteSize < MaxScanTokenSize then some (dropCR raw) else none

/-- Lines 148-192: the loop `for scanner.Scan()` over the raw lines of the
backend body, in order. The loop ends when the body is exhausted or when `Scan`
returns false at a line that does not fit the buffer; the lines after such a
line are never read. -/
def relayLoop (unmarshal : String → Option PrivateAPISSEResponse)
    (marshal : OpenAISSEResponse → Option String) (sessionId : String) (created : Int) :
    List String → RelayState → RelayState
  | [], st => st
  | raw :: rest, st =>
    match Scan raw with
    | none => st
    | some line =>
      relayLoop unmarshal marshal sessionId created rest
        (relayLine unmarshal marshal sessionId created st line)

/-- The streaming branch from the creation of the session id and timestamp to
the end of the scan: the events written for the raw lines of the backend
body. -/
def streamRelay (unmarshal : String → Option PrivateAPISSEResponse)
    (marshal : OpenAISSEResponse → Option String) (sessionId : String) (created : Int)
    (lines : List String) : List String :=
  (relayLoop unmarshal marshal sessionId created lines RelayState.init).written

/-- The texts the scanner yields for the raw lines of a body, up to the first
line that does not fit the buffer. -/
def scannedLines : List String → List String
  | [] => []
  | raw :: rest =>
    match Scan raw with
    | none => []
    | some line => line :: scannedLines rest

/-! ## Buffered relay (main.go 205-262) -/

/-- Lines 225-255: the reply built from a parsed backend reply, with the
synthesized usage block. `id` is the fresh UUID and `now` the current time. -/
def bufferedReply (id : String) (now : Int) (privateResp : PrivateAPISSEResponse) :
    OpenAISSEResponse :=
  let promptTokens : Int := 13
  let completionTokens : Int := ((Split privateResp.ResponseMessage ' ').length : Nat)
  let totalTokens : Int := promptTokens + completionTokens
  { ID := id
    Object := "chat.completion"
    Created := now
    Model := "deepseek-chat"
    SystemFingerprint := "fp_8802369eaa_prod0425fp8"
    Choices :=
      [ { Index := 0
          Message := { Role := "assistant", Content := privateResp.ResponseMessage }
          Delta := Delta.zero
          LogProbs := none
          FinishReason := some "stop" } ]
    Usage :=
      { PromptTokens := promptTokens
        CompletionTokens := completionTokens
        TotalTokens := totalTokens
        PromptTokensDetails := { CachedTokens := 0 }
        PromptCacheHitTokens := 0
        PromptCacheMissTokens := promptTokens } }

/-! ## Whitespace tokens, as the specification words them -/

/-- The whitespace-separated tokens of a character list: the maximal runs of
non-whitespace characters, in order. `cur` is the run being read. -/
def whitespaceTokensAux : List Char → List Char → List (List Char)
  | [], cur => if cur = [] then [] else [cur]
  | c :: cs, cur =>
    if c.isWhitespace then
      if cur = [] then whitespaceTokensAux cs []
      else cur :: whitespaceTokensAux cs []
    else whitespaceTokensAux cs (cur ++ [c])

/-- The whitespace-token count of a text: the number of tokens obtained by
splitting it on whitespace. -/
def whitespaceTokenCount (s : String) : Nat :=
  (whitespaceTokensAux s.data []).length

/-! ## Detection over the produced messages -/

/-- A produced content item is an image item when its kind, the `Type` field,
is the image marker `"input_image"`. -/
def isImageItem (it : PrivateAPIContentItem) : Bool :=
  it.Type_ == "input_image"

/-- The detector's verdict stated on a produced message list: some content
item of some message is an image item. -/
def normalizedHasImage (messages : List PrivateAPIMessage) : Bool :=
  messages.any (fun m => m.Content.any isImageItem)

/-- The detector's verdict on one message, read off its raw content. -/
def hasImage_content (content : JValue) : Bool :=
  match content with
  | .arr contentArray => hasImage_array contentArray
  | _ => false

/-! ## Sample inputs -/

/-- A configuration with credentials and one model mapping. -/
def sampleConfig : Config :=
  { TargetBaseURL := "http://backend"
    DefaultAgentID := "agent-1"
    DefaultSecretKey := "secret-1"
    ServerAddress := ":8080"
    ModelMap := some [("gpt-4", "svc-large")]
    LogDirectory := "proxy.log" }

/-- The structured element with kind `kind` and text `text`. -/
def textElement (kind text : String) : JValue :=
  .obj [("type", .str kind), ("text", .str text)]

/-- The structured image element with URL `url`. -/
def imageElement (url : String) : JValue :=
  .obj [("type", .str "input_image"), ("image_url", .obj [("url", .str url)])]

/-- A request with a system string message and a user message holding a text
and an image element. -/
def sampleImageRequest : OpenAIRequest :=
  { Model := "gpt-4"
    Messages :=
      [ { Role := "system", Content := .str "be brief" },
        { Role := "user",
          Content := .arr [textElement "text" "what is this", imageElement "http://img/1.png"] } ]
    Stream := true }

/-- A request of two string messages for a model that is not mapped. -/
def sampleTextRequest : OpenAIRequest :=
  { Model := "other-model"
    Messages :=
      [ { Role := "system", Content := .str "be brief" },
        { Role := "user", Content := .str "hello" } ]
    Stream := false }

/-- The translation of `sampleImageRequest` under `sampleConfig`. -/
def sampleImageResult : PrivateAPIRequest :=
  .multiModal
    { AgentID := "agent-1"
      SecretKey := "secret-1"
      ServiceName := "svc-large"
      Stream := true
      Messages :=
        [ { Role := "system",
            Content := [{ Type_ := "text", Text := "be brief", ImageURL := none }] },
          { Role := "user",
            Content :=
              [ { Type_ := "text", Text := "what is this", ImageURL := none },
                { Type_ := "input_image", Text := "",
                  ImageURL := some { URL := "http://img/1.png" } } ] } ] }

/-- The translation of `sampleTextRequest` under `sampleConfig`. -/
def sampleTextResult : PrivateAPIRequest :=
  .text
    { AgentID := "agent-1"
      SecretKey := "secret-1"
      ServiceName := "other-model"
      Messages :=
        [ { Role := "system",
            Content := [{ Type_ := "text", Text := "be brief", ImageURL := none }] },
          { Role := "user",
            Content := [{ Type_ := "text", Text := "hello", ImageURL := none }] } ]
      Stream := false }

/-- A message whose only structured element is a map without a `"type"`. -/
def untypedElementMessage : OpenAIInput :=
  { Role := "user", Content := .arr [.obj [("text", .str "hi")]] }

/-- A message whose content is the number 42. -/
def numberMessage : OpenAIInput :=
  { Role := "user", Content := .num 42 }

/-- A message holding one image element. -/
def imageMessage : OpenAIInput :=
  { Role := "user", Content := .arr [imageElement "http://img/1.png"] }

/-- A message whose structured element binds `"type"` to a number. -/
def numericTypeMessage : OpenAIInput :=
  { Role := "user", Content := .arr [.obj [("type", .num 5), ("text", .str "hi")]] }

/-- The content is one of the two shapes the type switch accepts: a string or
an array. -/
def isSupportedContent : JValue → Bool
  | .str _ => true
  | .arr _ => true
  | _ => false

/-- The backend frame a scanned line is relayed for, if any: the line is not
empty, carries the `data:` prefix, and its payload parses. -/
def acceptedFrame (unmarshal : String → Option PrivateAPISSEResponse) (line : String) :
    Option PrivateAPISSEResponse :=
  if line ≠ "" ∧ HasPrefix line "data:" = true then unmarshal (TrimPrefix line "data:")
  else none

/-- The text made of the given words joined by single spaces. -/
def joinWithSpaces : List (List Char) → List Char
  | [] => []
  | [w] => w
  | w :: ws => w ++ ' ' :: joinWithSpaces ws

/-- A successful backend frame or reply carrying `text`. -/
def sampleFrame (text : String) : PrivateAPISSEResponse :=
  { Success := true, Code := 0, ErrorMessage := none, ErrorDetail := none
    RequestId := none, ResponseId := none, ResponseMessage := text, Data := .null }

/-- A stand-in decoder for the examples: the payload `msg=t` decodes to the
frame carrying `t`, every other payload is malformed. -/
def sampleUnmarshal (payload : String) : Option PrivateAPISSEResponse :=
  if HasPrefix payload "msg=" then some (sampleFrame (TrimPrefix payload "msg="))
  else none

/-- A stand-in encoder for the examples: it writes the id, the timestamp and
the delta contents of a chunk. -/
def sampleEncode (r : OpenAISSEResponse) : String :=
  r.ID ++ "@" ++ toString r.Created ++ ":" ++ String.join (r.Choices.map (fun c => c.Delta.Content))

/-- The encoder as a `json.Marshal` that never fails. -/
def sampleMarshal (r : OpenAISSEResponse) : Option String :=
  some (sampleEncode r)

/-! ## Reading a structured element -/

/-- The map held by an array element, when the element is a map: the checked
assertion `item.(map[string]interface{})` of both content loops. -/
def asObject : JValue → Option (List (String × JValue))
  | .obj contentMap => some contentMap
  | _ => none

/-- The `"text"` field of a map element as the loops read it: the bound string,
and the empty string when the key is absent or is not bound to a string. -/
def elementText (contentMap : List (String × JValue)) : String :=
  (assertString (mapIndex contentMap "text")).getD ""

/-- The image URL of a map element as the loops read it: present when
`"image_url"` is bound to a map that binds `"url"` to a string. -/
def elementImageURL (contentMap : List (String × JValue)) : Option PrivateAPIImageURL :=
  ((assertMap (mapIndex contentMap "image_url")).bind
    (fun imageURL => assertString (mapIndex imageURL "url"))).map PrivateAPIImageURL.mk

/-- The item both switches build for a string content. -/
def textItem (s : String) : PrivateAPIContentItem :=
  { Type_ := "text", Text := s, ImageURL := none }

/-! ## The content-item invariant, as the specification words it -/

/-- The text of an item is populated: it is not the empty string (an empty
`Text` is left out of the serialized item). -/
def textPopulated (it : PrivateAPIContentItem) : Bool :=
  it.Text != ""

/-- The image URL of an item is populated: the pointer is not nil. -/
def imageURLPopulated (it : PrivateAPIContentItem) : Bool :=
  it.ImageURL.isSome

/-- A produced content item is a text item when its kind, the `Type` field, is
`"text"`, the kind both switches give to a string content. -/
def isTextItem (it : PrivateAPIContentItem) : Bool :=
  it.Type_ == "text"

/-- The invariant of a content item: exactly one of text and image URL is
populated, the image URL exactly for an image item and the text exactly for a
text item. -/
def contentItemInvariant (it : PrivateAPIContentItem) : Bool :=
  (textPopulated it != imageURLPopulated it) &&
    (isImageItem it == imageURLPopulated it) &&
    (isTextItem it == textPopulated it)

/-! ## The envelope `encoding/json` writes for `OpenAISSEResponse` -/

/-- A `*string` field without `omitempty`: `null` for nil, the string
otherwise. -/
def envelopeStringPtr : Option String → JValue
  | none => .null
  | some s => .str s

/-- Keys written for a `Usage`, from its field tags (models.go 35-46): no
field is tagged `omitempty`. -/
def envelopeUsage (u : Usage) : JValue :=
  .obj [ ("prompt_tokens", .num u.PromptTokens),
         ("completion_tokens", .num u.CompletionTokens),
         ("total_tokens", .num u.TotalTokens),
         ("prompt_tokens_details",
           .obj [("cached_tokens", .num u.PromptTokensDetails.CachedTokens)]),
         ("prompt_cache_hit_tokens", .num u.PromptCacheHitTokens),
         ("prompt_cache_miss_tokens", .num u.PromptCacheMissTokens) ]

/-- Keys written for a `Choice`, from its field tags (models.go 18-24). The
`omitempty` of `message` and `delta` never applies: both fields are structs,
which `encoding/json` does not treat as empty. -/
def envelopeChoice (c : Choice) : JValue :=
  .obj [ ("index", .num c.Index),
         ("message", .obj [("role", .str c.Message.Role), ("content", .str c.Message.Content)]),
         ("delta", .obj [("content", .str c.Delta.Content)]),
         ("logprobs", envelopeStringPtr c.LogProbs),
         ("finish_reason", envelopeStringPtr c.FinishReason) ]

/-- Keys written for an `OpenAISSEResponse`, from its field tags
(models.go 8-16): `usage` is a struct held by value and has no `omitempty`. -/
def envelopeBindings (r : OpenAISSEResponse) : List (String × JValue) :=
  [ ("id", .str r.ID),
    ("object", .str r.Object),
    ("created", .num r.Created),
    ("model", .str r.Model),
    ("system_fingerprint", .str r.SystemFingerprint),
    ("choices", .arr (r.Choices.map envelopeChoice)),
    ("usage", envelopeUsage r.Usage) ]

/-! ## What a produced content list copies -/

/-- The number of items the content switch builds for a content: one for a
string, one per map element for an array. -/
def normalizedLength : JValue → Nat
  | .str _ => 1
  | .arr items => (items.filterMap asObject).length
  | _ => 0

/-- The item is the copy of the map element: the element's type string as
kind, its text and its image URL. -/
def ItemCopiesElement (contentMap : List (String × JValue)) (it : PrivateAPIContentItem) :
    Prop :=
  assertString (mapIndex contentMap "type") = some it.Type_ ∧
    it.Text = elementText contentMap ∧ it.ImageURL = elementImageURL contentMap

/-- The produced content list copies the inbound content: the one text item of
a string, or the copies of the map elements of an array, in order. -/
def ContentCopied (content : JValue) (out : List PrivateAPIContentItem) : Prop :=
  (∀ s, content = .str s → out = [textItem s]) ∧
    (∀ items, content = .arr items →
      List.Forall₂ ItemCopiesElement (items.filterMap asObject) out)

/-- The map element itself has the shape the content-item invariant asks of
its copy: type `"input_image"` with an image URL and no text, or type `"text"`
with a text and no image URL. -/
def elementWellShaped (contentMap : List (String × JValue)) : Bool :=
  match assertString (mapIndex contentMap "type") with
  | none => false
  | some type_ =>
    (type_ == "input_image" && (elementImageURL contentMap).isSome
        && elementText contentMap == "") ||
      (type_ == "text" && (elementImageURL contentMap).isNone
        && elementText contentMap != "")

/-! ## Further sample inputs -/

/-- An array mixing two maps with a string and a number. -/
def mixedArray : List JValue :=
  [.str "x", textElement "text" "a", .num 1, imageElement "http://img/1.png"]

/-- The content list built for `mixedArray`. -/
def mixedArrayItems : List PrivateAPIContentItem :=
  [ { Type_ := "text", Text := "a", ImageURL := none },
    { Type_ := "input_image", Text := "", ImageURL := some { URL := "http://img/1.png" } } ]


/-- A message whose content is the empty array. -/
def emptyArrayMessage : OpenAIInput :=
  { Role := "user", Content := .arr [] }

/-- A message whose array holds no map: a string, a number and `null`. -/
def noObjectMessage : OpenAIInput :=
  { Role := "user", Content := .arr [.str "hi", .num 1, .null] }

/-- An image element that also carries a text. -/
def captionedImageElement : JValue :=
  .obj [ ("type", .str "input_image"), ("text", .str "caption"),
         ("image_url", .obj [("url", .str "http://img/1.png")]) ]

/-- An element of type `"input_image"` without an `"image_url"`. -/
def bareImageElement : JValue :=
  .obj [("type", .str "input_image")]

/-- A request whose single message holds `captionedImageElement` and
`bareImageElement`. -/
def mixedItemsRequest : OpenAIRequest :=
  { Model := "gpt-4"
    Messages := [{ Role := "user", Content := .arr [captionedImageElement, bareImageElement] }]
    Stream := false }

/-- The translation of `mixedItemsRequest` under `sampleConfig`. -/
def mixedItemsResult : PrivateAPIRequest :=
  .multiModal
    { AgentID := "agent-1"
      SecretKey := "secret-1"
      ServiceName := "svc-large"
      Stream := false
      Messages :=
        [ { Role := "user",
            Content :=
              [ { Type_ := "input_image", Text := "caption",
                  ImageURL := some { URL := "http://img/1.png" } },
                { Type_ := "input_image", Text := "", ImageURL := none } ] } ] }

/-- A request whose messages normalize to no content item. -/
def emptyContentRequest : OpenAIRequest :=
  { Model := "gpt-4", Messages := [emptyArrayMessage, noObjectMessage], Stream := false }

/-- The translation of `emptyContentRequest` under `sampleConfig`. -/
def emptyContentResult : PrivateAPIRequest :=
  .text
    { AgentID := "agent-1"
      SecretKey := "secret-1"
      ServiceName := "svc-large"
      Messages := [{ Role := "user", Content := [] }, { Role := "user", Content := [] }]
      Stream := false }

/-- A request whose single message is `untypedElementMessage`. -/
def untypedElementRequest : OpenAIRequest :=
  { Model := "gpt-4", Messages := [untypedElementMessage], Stream := false }

/-- A text of `MaxScanTokenSize` letters. -/
def oversizedText : String :=
  String.mk (List.replicate MaxScanTokenSize 'a')

/-! # Lemmas -/

/-! ## The two converters run the same loops -/

theorem multiModal_item_eq (contentMap : List (String × JValue)) :
    convertToMultiModalRequest_item contentMap = convertToTextRequest_item contentMap :=
  rfl

theorem multiModal_items_eq (items : List JValue) :
    ∀ acc, convertToMultiModalRequest_items items acc
      = convertToTextRequest_items items acc := by
  induction items with
  | nil => intro acc; rfl
  | cons item rest ih =>
    intro acc
    cases item <;>
      simp only [convertToMultiModalRequest_items, convertToTextRequest_items, ih,
        multiModal_item_eq]

theorem multiModal_content_eq (content : JValue) :
    convertToMultiModalRequest_content content = convertToTextRequest_content content := by
  cases content <;>
    simp only [convertToMultiModalRequest_content, convertToTextRequest_content,
      multiModal_items_eq]

theorem multiModal_messages_eq (msgs : List OpenAIInput) :
    ∀ acc, convertToMultiModalRequest_messages msgs acc
      = convertToTextRequest_messages msgs acc := by
  induction msgs with
  | nil => intro acc; rfl
  | cons m rest ih =>
    intro acc
    simp only [convertToMultiModalRequest_messages, convertToTextRequest_messages, ih,
      multiModal_content_eq]

/-! ## What the loops compute -/

/-- A built item carries the asserted `"type"` string as its kind. -/
theorem item_ok_type (contentMap : List (String × JValue)) (it : PrivateAPIContentItem)
    (h : convertToTextRequest_item contentMap = .ok it) :
    assertString (mapIndex contentMap "type") = some it.Type_ := by
  unfold convertToTextRequest_item at h
  split at h
  · cases h
  · rename_i t ht
    rw [ht]
    simp only [GoResult.ok.injEq] at h
    subst h
    congr 1
    repeat' split
    all_goals rfl

/-- The detector's test on a map element agrees with the kind of the item
built from it. -/
theorem item_ok_image (contentMap : List (String × JValue)) (it : PrivateAPIContentItem)
    (h : convertToTextRequest_item contentMap = .ok it) :
    hasImage_item (.obj contentMap) = isImageItem it := by
  simp only [hasImage_item, item_ok_type contentMap it h, isImageItem]

/-- Image items of a finished content loop: those already built, or one the
detector sees in the array. -/
theorem items_ok_image (items : List JValue) :
    ∀ acc out, convertToTextRequest_items items acc = .ok out →
      out.any isImageItem = (acc.any isImageItem || hasImage_array items) := by
  induction items with
  | nil =>
    intro acc out h
    simp only [convertToTextRequest_items, GoResult.ok.injEq] at h
    simp [h, hasImage_array]
  | cons item rest ih =>
    intro acc out h
    cases item with
    | obj contentMap =>
      simp only [convertToTextRequest_items] at h
      cases hit : convertToTextRequest_item contentMap with
      | ok it =>
        rw [hit] at h
        simp only at h
        rw [ih _ _ h, hasImage_array, item_ok_image contentMap it hit]
        cases hb : isImageItem it <;> simp [hb]
      | err e => rw [hit] at h; cases h
      | panic q => rw [hit] at h; cases h
    | null | bool | num | str | arr =>
      simp only [convertToTextRequest_items] at h
      rw [ih _ _ h]
      simp [hasImage_array, hasImage_item]

theorem hasImage_cons (message : OpenAIInput) (rest : List OpenAIInput) :
    hasImage (message :: rest) = (hasImage_content message.Content || hasImage rest) := by
  cases hc : message.Content <;> simp [hasImage, hasImage_content, hc]

theorem content_ok_image (content : JValue) (out : List PrivateAPIContentItem)
    (h : convertToTextRequest_content content = .ok out) :
    out.any isImageItem = hasImage_content content := by
  cases content with
  | str s =>
    simp only [convertToTextRequest_content, GoResult.ok.injEq] at h
    subst h
    simp [isImageItem, hasImage_content]
  | arr items =>
    simp only [convertToTextRequest_content] at h
    simpa [hasImage_content] using items_ok_image items [] out h
  | null | bool | num | obj =>
    simp [convertToTextRequest_content] at h

theorem messages_ok_image (msgs : List OpenAIInput) :
    ∀ acc out, convertToTextRequest_messages msgs acc = .ok out →
      normalizedHasImage out = (normalizedHasImage acc || hasImage msgs) := by
  induction msgs with
  | nil =>
    intro acc out h
    simp only [convertToTextRequest_messages, GoResult.ok.injEq] at h
    simp [h, hasImage]
  | cons m rest ih =>
    intro acc out h
    simp only [convertToTextRequest_messages] at h
    cases hc : convertToTextRequest_content m.Content with
    | ok items =>
      rw [hc] at h
      rw [ih _ _ h, hasImage_cons, ← content_ok_image _ _ hc]
      simp [normalizedHasImage, Bool.or_assoc]
    | err e => rw [hc] at h; cases h
    | panic q => rw [hc] at h; cases h

/-- Roles of a finished message loop: the roles already built followed by the
roles of the ranged messages, in order. -/
theorem messages_ok_roles (msgs : List OpenAIInput) :
    ∀ acc out, convertToTextRequest_messages msgs acc = .ok out →
      out.map (fun m => m.Role) = acc.map (fun m => m.Role) ++ msgs.map (fun m => m.Role) := by
  induction msgs with
  | nil =>
    intro acc out h
    simp only [convertToTextRequest_messages, GoResult.ok.injEq] at h
    simp [h]
  | cons m rest ih =>
    intro acc out h
    simp only [convertToTextRequest_messages] at h
    cases hc : convertToTextRequest_content m.Content with
    | ok items =>
      rw [hc] at h
      rw [ih _ _ h]
      simp
    | err e => rw [hc] at h; cases h
    | panic q => rw [hc] at h; cases h

/-- A successful `ConvertOpenAIToPrivateAPI` call, unfolded: the message list is
non-empty, the text message loop succeeded with the result's messages, the
shape follows `hasImage`, and the scalar fields are copied. -/
theorem convert_ok_inv (req : OpenAIRequest) (cfg : Config) (r : PrivateAPIRequest)
    (h : ConvertOpenAIToPrivateAPI (some req) (some cfg) = .ok r) :
    req.Messages ≠ [] ∧
    convertToTextRequest_messages req.Messages [] = .ok r.messages ∧
    r.isMultiModal = hasImage req.Messages ∧
    r.serviceName = resolveServiceName req.Model cfg.ModelMap ∧
    r.agentID = cfg.DefaultAgentID ∧ r.secretKey = cfg.DefaultSecretKey ∧
    r.stream = req.Stream := by
  unfold ConvertOpenAIToPrivateAPI at h
  simp only at h
  by_cases hi : hasImage req.Messages = true
  · rw [if_pos hi] at h
    unfold convertToMultiModalRequest at h
    simp only [multiModal_messages_eq] at h
    by_cases hl : req.Messages.length = 0
    · rw [if_pos hl] at h; cases h
    · rw [if_neg hl] at h
      have he : req.Messages ≠ [] := fun hnil => hl (by rw [hnil]; rfl)
      cases hm : convertToTextRequest_messages req.Messages [] with
      | ok out =>
        rw [hm] at h
        simp only [GoResult.wrap, GoResult.ok.injEq] at h
        subst h
        simp [PrivateAPIRequest.messages, PrivateAPIRequest.isMultiModal, hi, he,
          PrivateAPIRequest.serviceName, PrivateAPIRequest.agentID,
          PrivateAPIRequest.secretKey, PrivateAPIRequest.stream]
      | err e => rw [hm] at h; cases h
      | panic q => rw [hm] at h; cases h
  · rw [if_neg hi] at h
    unfold convertToTextRequest at h
    simp only at h
    by_cases hl : req.Messages.length = 0
    · rw [if_pos hl] at h; cases h
    · rw [if_neg hl] at h
      have he : req.Messages ≠ [] := fun hnil => hl (by rw [hnil]; rfl)
      cases hm : convertToTextRequest_messages req.Messages [] with
      | ok out =>
        rw [hm] at h
        simp only [GoResult.wrap, GoResult.ok.injEq] at h
        subst h
        simp [PrivateAPIRequest.messages, PrivateAPIRequest.isMultiModal, hi, he,
          PrivateAPIRequest.serviceName, PrivateAPIRequest.agentID,
          PrivateAPIRequest.secretKey, PrivateAPIRequest.stream]
      | err e => rw [hm] at h; cases h
      | panic q => rw [hm] at h; cases h

/-- The message loop only reads a message through its role and the result of
the content switch. -/
theorem messages_congr (m₁ m₂ : OpenAIInput) (post : List OpenAIInput)
    (hr : m₁.Role = m₂.Role)
    (hc : convertToTextRequest_content m₁.Content = convertToTextRequest_content m₂.Content)
    (pre : List OpenAIInput) :
    ∀ acc, convertToTextRequest_messages (pre ++ m₁ :: post) acc
      = convertToTextRequest_messages (pre ++ m₂ :: post) acc := by
  induction pre with
  | nil =>
    intro acc
    simp only [List.nil_append, convertToTextRequest_messages, hr, hc]
  | cons m rest ih =>
    intro acc
    show convertToTextRequest_messages (m :: (rest ++ m₁ :: post)) acc
      = convertToTextRequest_messages (m :: (rest ++ m₂ :: post)) acc
    simp only [convertToTextRequest_messages, ih]

/-- The detector only reads a message through `hasImage_content`. -/
theorem hasImage_congr (m₁ m₂ : OpenAIInput) (post : List OpenAIInput)
    (hc : hasImage_content m₁.Content = hasImage_content m₂.Content)
    (pre : List OpenAIInput) :
    hasImage (pre ++ m₁ :: post) = hasImage (pre ++ m₂ :: post) := by
  induction pre with
  | nil => simp only [List.nil_append, hasImage_cons, hc]
  | cons m rest ih => simp only [List.cons_append, hasImage_cons, ih]

/-- Requests that agree on the model, the stream flag, the detector's verdict,
the emptiness of the message list and the result of the message loop are
translated alike. -/
theorem convert_congr (req₁ req₂ : OpenAIRequest) (cfg : Config)
    (hmodel : req₁.Model = req₂.Model) (hstream : req₁.Stream = req₂.Stream)
    (himg : hasImage req₁.Messages = hasImage req₂.Messages)
    (hlen : req₁.Messages.length = req₂.Messages.length)
    (hloop : convertToTextRequest_messages req₁.Messages []
      = convertToTextRequest_messages req₂.Messages []) :
    ConvertOpenAIToPrivateAPI (some req₁) (some cfg)
      = ConvertOpenAIToPrivateAPI (some req₂) (some cfg) := by
  simp only [ConvertOpenAIToPrivateAPI, convertToMultiModalRequest, convertToTextRequest,
    multiModal_messages_eq, hmodel, hstream, himg, hlen, hloop]

/-- The content loop never returns an error, and its only panic is the failed
type assertion. -/
theorem items_not_ok (items : List JValue) :
    ∀ acc, (∀ e, convertToTextRequest_items items acc ≠ .err e) ∧
      ∀ q, convertToTextRequest_items items acc = .panic q → q = panicTypeAssertion := by
  induction items with
  | nil => intro acc; simp [convertToTextRequest_items]
  | cons item rest ih =>
    intro acc
    cases item with
    | obj contentMap =>
      simp only [convertToTextRequest_items]
      cases hit : convertToTextRequest_item contentMap with
      | ok it => exact ih _
      | err e =>
        unfold convertToTextRequest_item at hit
        split at hit <;> cases hit
      | panic q =>
        unfold convertToTextRequest_item at hit
        split at hit
        · simp only [GoResult.panic.injEq] at hit
          simp [hit]
        · cases hit
    | null | bool | num | str | arr =>
      simp only [convertToTextRequest_items]
      exact ih _

/-- The content switch fails only with the unsupported-content error, exactly
on the unsupported shapes, or with the type-assertion panic. -/
theorem content_not_ok (content : JValue) :
    (∀ e, convertToTextRequest_content content = .err e →
      e = errUnsupportedContent ∧ isSupportedContent content = false) ∧
    (∀ q, convertToTextRequest_content content = .panic q → q = panicTypeAssertion) ∧
    (isSupportedContent content = false →
      convertToTextRequest_content content = .err errUnsupportedContent) := by
  cases content with
  | arr items =>
    have h := items_not_ok items []
    simp only [convertToTextRequest_content, isSupportedContent]
    exact ⟨fun e he => absurd he (h.1 e), h.2, fun hf => by cases hf⟩
  | str s => simp [convertToTextRequest_content, isSupportedContent]
  | null | bool | num | obj =>
    simp [convertToTextRequest_content, isSupportedContent]

/-- A message loop that ranges over a message of unsupported content ends with
the unsupported-content error, unless an earlier structured element made it
panic. -/
theorem messages_unsupported (msgs : List OpenAIInput)
    (h : ∃ m ∈ msgs, isSupportedContent m.Content = false) :
    ∀ acc, convertToTextRequest_messages msgs acc = .err errUnsupportedContent ∨
      convertToTextRequest_messages msgs acc = .panic panicTypeAssertion := by
  induction msgs with
  | nil => obtain ⟨m, hm, _⟩ := h; cases hm
  | cons m rest ih =>
    intro acc
    simp only [convertToTextRequest_messages]
    obtain ⟨he, hq, hu⟩ := content_not_ok m.Content
    cases hc : convertToTextRequest_content m.Content with
    | ok items =>
      obtain ⟨m', hm', hs'⟩ := h
      rcases List.mem_cons.mp hm' with rfl | hin
      · rw [hu hs'] at hc; cases hc
      · exact ih ⟨m', hin, hs'⟩ _
    | err e => rw [(he e hc).1]; exact Or.inl rfl
    | panic q => rw [hq q hc]; exact Or.inr rfl

/-- On a request with a message of unsupported content `ConvertOpenAIToPrivateAPI`
yields no request: it returns the unsupported-content error or panics at a
failed type assertion. -/
theorem convert_unsupported (req : OpenAIRequest) (cfg : Config)
    (h : ∃ m ∈ req.Messages, isSupportedContent m.Content = false) :
    ConvertOpenAIToPrivateAPI (some req) (some cfg) = .err errUnsupportedContent ∨
      ConvertOpenAIToPrivateAPI (some req) (some cfg) = .panic panicTypeAssertion := by
  have hl : req.Messages.length ≠ 0 := by
    obtain ⟨m, hm, _⟩ := h
    intro h0
    rw [List.length_eq_zero.mp h0] at hm
    cases hm
  simp only [ConvertOpenAIToPrivateAPI, convertToMultiModalRequest, convertToTextRequest,
    multiModal_messages_eq, if_neg hl]
  rcases messages_unsupported req.Messages h [] with hm | hm <;>
    rw [hm] <;> split <;> simp [GoResult.wrap]

/-! ## The relay loop -/

/-- A line made of the prefix `data:` and a payload is not empty, carries the
prefix, and trims back to the payload. -/
theorem dataLine_spec (payload : String) :
    "data:" ++ payload ≠ "" ∧ HasPrefix ("data:" ++ payload) "data:" = true ∧
      TrimPrefix ("data:" ++ payload) "data:" = payload := by
  have hp : HasPrefix ("data:" ++ payload) "data:" = true := by
    simp [HasPrefix, String.data_append]
  refine ⟨?_, hp, ?_⟩
  · intro h
    have hlen := congrArg String.length h
    simp only [String.length_append] at hlen
    have h5 : "data:".length = 5 := by decide
    have h0 : "".length = 0 := by decide
    omega
  · simp [TrimPrefix, hp, String.data_append]

theorem acceptedFrame_dataLine (unmarshal : String → Option PrivateAPISSEResponse)
    (payload : String) :
    acceptedFrame unmarshal ("data:" ++ payload) = unmarshal payload := by
  obtain ⟨h₁, h₂, h₃⟩ := dataLine_spec payload
  simp [acceptedFrame, h₁, h₂, h₃]

/-- One iteration writes the event of the accepted frame, if there is one and
its chunk serializes, and nothing otherwise; what was written stays. -/
theorem relayLine_written (unmarshal : String → Option PrivateAPISSEResponse)
    (marshal : OpenAISSEResponse → Option String) (sessionId : String) (created : Int)
    (st : RelayState) (line : String) :
    (relayLine unmarshal marshal sessionId created st line).written
      = st.written ++
        ((acceptedFrame unmarshal line).bind
          (fun f => (marshal (streamChunk sessionId created f)).map sseEvent)).toList := by
  unfold relayLine acceptedFrame
  by_cases he : line = ""
  · simp [he]
  · by_cases hp : HasPrefix line "data:" = true
    · simp only [he, hp, if_false, if_true, ne_eq, not_false_eq_true, and_self]
      cases hu : unmarshal (TrimPrefix line "data:") with
      | none => simp
      | some f =>
        cases hm : marshal (streamChunk sessionId created f) <;> simp [hm]
    · simp [he, hp]

/-- The loop writes, after what was written before, the events of the accepted
frames of the lines the scanner yields, in the order of the lines. -/
theorem relayLoop_written (unmarshal : String → Option PrivateAPISSEResponse)
    (marshal : OpenAISSEResponse → Option String) (sessionId : String) (created : Int)
    (raws : List String) :
    ∀ st, (relayLoop unmarshal marshal sessionId created raws st).written
      = st.written ++
        (scannedLines raws).filterMap (fun line => (acceptedFrame unmarshal line).bind
          (fun f => (marshal (streamChunk sessionId created f)).map sseEvent)) := by
  induction raws with
  | nil => intro st; simp [relayLoop, scannedLines]
  | cons raw rest ih =>
    intro st
    rw [relayLoop, scannedLines]
    cases Scan raw with
    | none => simp
    | some line =>
      simp only
      rw [ih, relayLine_written]
      cases hb : (acceptedFrame unmarshal line).bind
          (fun f => (marshal (streamChunk sessionId created f)).map sseEvent) with
      | none => simp [List.filterMap_cons, hb]
      | some ev => simp [List.filterMap_cons, hb]

/-- With a `json.Marshal` that succeeds on every chunk, the relay writes, for
each accepted frame of the lines the scanner yields and in their order, the
bytes `data: `, the serialized chunk and two newlines. -/
theorem streamRelay_eq (unmarshal : String → Option PrivateAPISSEResponse)
    (marshal : OpenAISSEResponse → Option String) (enc : OpenAISSEResponse → String)
    (hm : ∀ r, marshal r = some (enc r)) (sessionId : String) (created : Int)
    (raws : List String) :
    streamRelay unmarshal marshal sessionId created raws
      = ((scannedLines raws).filterMap (acceptedFrame unmarshal)).map
          (fun f => "data: " ++ enc (streamChunk sessionId created f) ++ "\n\n") := by
  rw [streamRelay, relayLoop_written]
  simp only [RelayState.init, List.nil_append, hm, Option.map_some', sseEvent]
  generalize scannedLines raws = lines
  induction lines with
  | nil => rfl
  | cons line rest ih =>
    cases ha : acceptedFrame unmarshal line <;>
      simp [List.filterMap_cons, ha, ih]

/-! ## The scanner -/

/-- Raw lines that all fit the buffer are all yielded, each without its
carriage return. -/
theorem scannedLines_of_fit (raws : List String)
    (hfit : ∀ raw ∈ raws, raw.utf8ByteSize < MaxScanTokenSize) :
    scannedLines raws = raws.map dropCR := by
  induction raws with
  | nil => rfl
  | cons raw rest ih =>
    have h₁ : raw.utf8ByteSize < MaxScanTokenSize := hfit raw (List.mem_cons_self _ _)
    rw [scannedLines, Scan, if_pos h₁]
    simp only [List.map_cons]
    rw [ih (fun r hr => hfit r (List.mem_cons_of_mem _ hr))]

/-- The scanner stops at the first raw line that does not fit the buffer: that
line and the lines after it yield nothing. -/
theorem scannedLines_oversized (before after : List String) (big : String)
    (hfit : ∀ raw ∈ before, raw.utf8ByteSize < MaxScanTokenSize)
    (hbig : MaxScanTokenSize ≤ big.utf8ByteSize) :
    scannedLines (before ++ big :: after) = before.map dropCR := by
  induction before with
  | nil =>
    have h₁ : ¬ big.utf8ByteSize < MaxScanTokenSize := Nat.not_lt.mpr hbig
    simp only [List.nil_append, List.map_nil]
    rw [scannedLines, Scan, if_neg h₁]
  | cons raw rest ih =>
    have h₁ : raw.utf8ByteSize < MaxScanTokenSize := hfit raw (List.mem_cons_self _ _)
    rw [List.cons_append, scannedLines, Scan, if_pos h₁]
    simp only [List.map_cons]
    rw [ih (fun r hr => hfit r (List.mem_cons_of_mem _ hr))]

/-- The relay of a body with a line that does not fit the buffer is the relay
of the lines before that line. -/
theorem streamRelay_oversized (unmarshal : String → Option PrivateAPISSEResponse)
    (marshal : OpenAISSEResponse → Option String) (sessionId : String) (created : Int)
    (before after : List String) (big : String)
    (hfit : ∀ raw ∈ before, raw.utf8ByteSize < MaxScanTokenSize)
    (hbig : MaxScanTokenSize ≤ big.utf8ByteSize) :
    streamRelay unmarshal marshal sessionId created (before ++ big :: after)
      = streamRelay unmarshal marshal sessionId created before := by
  rw [streamRelay, streamRelay, relayLoop_written, relayLoop_written,
    scannedLines_oversized before after big hfit hbig, scannedLines_of_fit before hfit]

/-- A raw line that fits the buffer and whose text is not accepted changes
nothing for the lines around it. -/
theorem scannedLines_skip {β : Type} (f : String → Option β) (raw : String)
    (hfit : raw.utf8ByteSize < MaxScanTokenSize) (hnone : f (dropCR raw) = none)
    (before after : List String) :
    (scannedLines (before ++ raw :: after)).filterMap f
      = (scannedLines (before ++ after)).filterMap f := by
  induction before with
  | nil =>
    simp only [List.nil_append]
    rw [scannedLines, Scan, if_pos hfit]
    simp only [List.filterMap_cons, hnone]
  | cons r rest ih =>
    simp only [List.cons_append]
    rw [scannedLines, scannedLines]
    cases Scan r with
    | none => rfl
    | some line =>
      simp only [List.filterMap_cons]
      rw [ih]

/-- The byte size of `n` copies of the letter `a`. -/
theorem utf8ByteSize_replicate (n : Nat) :
    (String.mk (List.replicate n 'a')).utf8ByteSize = n := by
  induction n with
  | zero => rfl
  | succ k ih =>
    have h1 : ('a' : Char).utf8Size = 1 := by decide
    simp only [String.utf8ByteSize_mk] at ih ⊢
    rw [List.replicate_succ, String.utf8Len_cons, ih, h1]

/-- A line that ends with `oversizedText` does not fit the buffer. -/
theorem oversized_line (pre : String) :
    MaxScanTokenSize ≤ (pre ++ oversizedText).utf8ByteSize := by
  have h : (pre ++ oversizedText).utf8ByteSize
      = pre.utf8ByteSize + oversizedText.utf8ByteSize :=
    String.utf8Len_append pre.data oversizedText.data
  rw [h, oversizedText, utf8ByteSize_replicate]
  exact Nat.le_add_left _ _

/-- Dropping the carriage return of a data line drops that of its payload. -/
theorem dropCR_dataLine (payload : String) :
    dropCR ("data:" ++ payload) = "data:" ++ dropCR payload := by
  cases payload with
  | mk cs =>
    rcases List.eq_nil_or_concat cs with rfl | ⟨init, last, rfl⟩
    · decide
    · have hd : ("data:" ++ String.mk (init ++ [last])).data
          = ("data:".data ++ init) ++ [last] := by
        simp [String.data_append]
      have hg₁ : (("data:".data ++ init) ++ [last]).getLast? = some last :=
        List.getLast?_concat _
      have hg₂ : (init ++ [last]).getLast? = some last := List.getLast?_concat _
      have hl₁ : (("data:".data ++ init) ++ [last]).dropLast = "data:".data ++ init :=
        List.dropLast_concat
      have hl₂ : (init ++ [last]).dropLast = init := List.dropLast_concat
      unfold dropCR
      simp only [List.concat_eq_append, hd, hg₁, hg₂, hl₁, hl₂]
      by_cases hl : last = '\r'
      · subst hl
        simp only [if_true]
        apply String.ext
        simp [String.data_append]
      · have hne : ¬ (some last = some '\r') := fun h => hl (Option.some.inj h)
        simp only [if_neg hne]

/-- A text begun by `pre` carries that prefix and trims back to the rest. -/
theorem prefix_spec (pre rest : String) :
    HasPrefix (pre ++ rest) pre = true ∧ TrimPrefix (pre ++ rest) pre = rest := by
  have hp : HasPrefix (pre ++ rest) pre = true := by
    simp [HasPrefix, String.data_append]
  refine ⟨hp, ?_⟩
  simp [TrimPrefix, hp, String.data_append]

/-- The stand-in decoder on a payload `msg=t`. -/
theorem sampleUnmarshal_msg (text : String) :
    sampleUnmarshal ("msg=" ++ text) = some (sampleFrame text) := by
  obtain ⟨h₁, h₂⟩ := prefix_spec "msg=" text
  simp [sampleUnmarshal, h₁, h₂]

/-- The stand-in decoder rejects `oversizedText`, which does not begin with
`msg=`. -/
theorem sampleUnmarshal_oversizedText : sampleUnmarshal oversizedText = none := by
  have h : oversizedText = String.mk ('a' :: List.replicate (MaxScanTokenSize - 1) 'a') := by
    rw [oversizedText, ← List.replicate_succ]
    rfl
  rw [h]
  simp [sampleUnmarshal, HasPrefix, List.isPrefixOf]

/-! ## Splitting at a separator and at whitespace -/

theorem splitChars_ne_nil (sep : Char) (l : List Char) : splitChars sep l ≠ [] := by
  cases l with
  | nil => simp [splitChars]
  | cons c cs =>
    unfold splitChars
    by_cases h : c = sep
    · simp [h]
    · rw [if_neg h]
      split <;> simp

/-- Splitting yields one piece more than there are separators. -/
theorem splitChars_length (sep : Char) (l : List Char) :
    (splitChars sep l).length = 1 + l.count sep := by
  induction l with
  | nil => simp [splitChars]
  | cons c cs ih =>
    unfold splitChars
    by_cases h : c = sep
    · subst h
      simp [ih]
      omega
    · rw [if_neg h]
      have hc : (c :: cs).count sep = cs.count sep := by
        rw [List.count_cons]
        simp [h]
      rw [hc, ← ih]
      cases hs : splitChars sep cs with
      | nil => exact absurd hs (splitChars_ne_nil sep cs)
      | cons piece pieces => simp

/-- A text without separator is its own single piece. -/
theorem splitChars_of_not_mem (sep : Char) (w : List Char) (hw : sep ∉ w) :
    splitChars sep w = [w] := by
  induction w with
  | nil => rfl
  | cons c cs ih =>
    have hc : c ≠ sep := fun h => hw (by simp [h])
    have hcs : sep ∉ cs := fun h => hw (List.mem_cons_of_mem _ h)
    unfold splitChars
    rw [if_neg hc, ih hcs]

/-- A separator after a text without separator closes the first piece. -/
theorem splitChars_append_sep (sep : Char) (w rest : List Char) (hw : sep ∉ w) :
    splitChars sep (w ++ sep :: rest) = w :: splitChars sep rest := by
  induction w with
  | nil => simp [splitChars]
  | cons c cs ih =>
    have hc : c ≠ sep := fun h => hw (by simp [h])
    have hcs : sep ∉ cs := fun h => hw (List.mem_cons_of_mem _ h)
    rw [List.cons_append, splitChars, if_neg hc, ih hcs]

theorem joinWithSpaces_cons_cons (w w' : List Char) (ws : List (List Char)) :
    joinWithSpaces (w :: w' :: ws) = w ++ ' ' :: joinWithSpaces (w' :: ws) :=
  rfl

/-- Splitting words joined by single spaces at the space gives the words. -/
theorem splitChars_joinWithSpaces (words : List (List Char)) (hne : words ≠ [])
    (hw : ∀ w ∈ words, ' ' ∉ w) : splitChars ' ' (joinWithSpaces words) = words := by
  induction words with
  | nil => exact absurd rfl hne
  | cons w ws ih =>
    cases ws with
    | nil => exact splitChars_of_not_mem ' ' w (hw w (List.mem_cons_self _ _))
    | cons w' ws' =>
      rw [joinWithSpaces_cons_cons, splitChars_append_sep ' ' w _ (hw w (List.mem_cons_self _ _)),
        ih (List.cons_ne_nil _ _) (fun v hv => hw v (List.mem_cons_of_mem _ hv))]

/-- Reading a run of non-whitespace characters extends the current token. -/
theorem whitespaceTokensAux_append (w rest : List Char)
    (hw : ∀ c ∈ w, c.isWhitespace = false) :
    ∀ cur, whitespaceTokensAux (w ++ rest) cur = whitespaceTokensAux rest (cur ++ w) := by
  induction w with
  | nil => intro cur; simp
  | cons c cs ih =>
    intro cur
    have hc : c.isWhitespace = false := hw c (List.mem_cons_self _ _)
    rw [List.cons_append, whitespaceTokensAux]
    simp only [hc, Bool.false_eq_true, if_false]
    rw [ih (fun d hd => hw d (List.mem_cons_of_mem _ hd))]
    simp

/-- The whitespace tokens of non-empty whitespace-free words joined by single
spaces are the words. -/
theorem whitespaceTokensAux_joinWithSpaces (words : List (List Char))
    (hw : ∀ w ∈ words, w ≠ [] ∧ ∀ c ∈ w, c.isWhitespace = false) :
    whitespaceTokensAux (joinWithSpaces words) [] = words := by
  induction words with
  | nil => simp [joinWithSpaces, whitespaceTokensAux]
  | cons w ws ih =>
    obtain ⟨hne, hfree⟩ := hw w (List.mem_cons_self _ _)
    have ih' := ih (fun v hv => hw v (List.mem_cons_of_mem _ hv))
    cases ws with
    | nil =>
      have := whitespaceTokensAux_append w [] hfree []
      simp only [List.append_nil, List.nil_append] at this
      rw [joinWithSpaces, this, whitespaceTokensAux, if_neg hne]
    | cons w' ws' =>
      have hsp : (' ' : Char).isWhitespace = true := by decide
      rw [joinWithSpaces_cons_cons, whitespaceTokensAux_append w _ hfree [], List.nil_append,
        whitespaceTokensAux]
      simp only [hsp, if_true, if_neg hne]
      rw [ih']

/-- The synthesized completion-token count is the number of pieces of
`strings.Split(text, " ")`, one more than the number of spaces. -/
theorem completionTokens_eq_count (id : String) (now : Int)
    (privateResp : PrivateAPISSEResponse) :
    (bufferedReply id now privateResp).Usage.CompletionTokens
      = ((1 + privateResp.ResponseMessage.data.count ' ' : Nat) : Int) := by
  simp only [bufferedReply, Split, List.length_map, splitChars_length]

/-! ## Items copy their elements -/

/-- The item of a map element, in closed form: a panic without a string
`"type"`, and otherwise the element's type, text and image URL, read
independently of one another. -/
theorem item_eq (contentMap : List (String × JValue)) :
    convertToTextRequest_item contentMap
      = match assertString (mapIndex contentMap "type") with
        | none => .panic panicTypeAssertion
        | some type_ =>
          .ok { Type_ := type_, Text := elementText contentMap,
                ImageURL := elementImageURL contentMap } := by
  unfold convertToTextRequest_item elementText elementImageURL
  cases assertString (mapIndex contentMap "type") with
  | none => rfl
  | some type_ =>
    cases assertString (mapIndex contentMap "text") <;>
      cases assertMap (mapIndex contentMap "image_url") with
      | none => rfl
      | some imageURL =>
        simp only [Option.bind, Option.getD]
        cases assertString (mapIndex imageURL "url") <;> rfl

/-- A built item, field by field. -/
theorem item_ok_fields (contentMap : List (String × JValue)) (it : PrivateAPIContentItem)
    (h : convertToTextRequest_item contentMap = .ok it) :
    assertString (mapIndex contentMap "type") = some it.Type_ ∧
      it.Text = elementText contentMap ∧ it.ImageURL = elementImageURL contentMap := by
  rw [item_eq] at h
  cases ht : assertString (mapIndex contentMap "type") with
  | none => rw [ht] at h; cases h
  | some type_ =>
    rw [ht] at h
    simp only [GoResult.ok.injEq] at h
    subst h
    exact ⟨rfl, rfl, rfl⟩

/-- A finished content loop appended one item per map element of the array,
in the order of the elements. -/
theorem items_ok_forall₂ (items : List JValue) :
    ∀ acc out, convertToTextRequest_items items acc = .ok out →
      ∃ tail, out = acc ++ tail ∧
        List.Forall₂ (fun contentMap it => convertToTextRequest_item contentMap = .ok it)
          (items.filterMap asObject) tail := by
  induction items with
  | nil =>
    intro acc out h
    simp only [convertToTextRequest_items, GoResult.ok.injEq] at h
    exact ⟨[], by simp [h], by simp⟩
  | cons item rest ih =>
    intro acc out h
    cases item with
    | obj contentMap =>
      simp only [convertToTextRequest_items] at h
      cases hit : convertToTextRequest_item contentMap with
      | ok it =>
        rw [hit] at h
        simp only at h
        obtain ⟨tail, hout, hrel⟩ := ih _ _ h
        refine ⟨it :: tail, by simp [hout], ?_⟩
        simp only [List.filterMap_cons, asObject]
        exact List.Forall₂.cons hit hrel
      | err e => rw [hit] at h; cases h
      | panic q => rw [hit] at h; cases h
    | null | bool | num | str | arr =>
      simp only [convertToTextRequest_items] at h
      obtain ⟨tail, hout, hrel⟩ := ih _ _ h
      exact ⟨tail, hout, by simpa [List.filterMap_cons, asObject] using hrel⟩

/-- A successful content switch on an array: one item per map element. -/
theorem content_arr_ok (items : List JValue) (out : List PrivateAPIContentItem)
    (h : convertToTextRequest_content (.arr items) = .ok out) :
    List.Forall₂ (fun contentMap it => convertToTextRequest_item contentMap = .ok it)
      (items.filterMap asObject) out := by
  simp only [convertToTextRequest_content] at h
  obtain ⟨tail, hout, hrel⟩ := items_ok_forall₂ items [] out h
  simpa [hout] using hrel

/-- A successful content switch on a string: the one text item. -/
theorem content_str_ok (s : String) (out : List PrivateAPIContentItem)
    (h : convertToTextRequest_content (.str s) = .ok out) : out = [textItem s] := by
  simp only [convertToTextRequest_content, GoResult.ok.injEq] at h
  rw [← h]
  rfl

/-- A finished message loop appended one message per inbound message, in
order, with the inbound role and the result of the content switch. -/
theorem messages_ok_forall₂ (msgs : List OpenAIInput) :
    ∀ acc out, convertToTextRequest_messages msgs acc = .ok out →
      ∃ tail, out = acc ++ tail ∧
        List.Forall₂
          (fun m o => o.Role = m.Role ∧ convertToTextRequest_content m.Content = .ok o.Content)
          msgs tail := by
  induction msgs with
  | nil =>
    intro acc out h
    simp only [convertToTextRequest_messages, GoResult.ok.injEq] at h
    exact ⟨[], by simp [h], by simp⟩
  | cons m rest ih =>
    intro acc out h
    simp only [convertToTextRequest_messages] at h
    cases hc : convertToTextRequest_content m.Content with
    | ok items =>
      rw [hc] at h
      simp only at h
      obtain ⟨tail, hout, hrel⟩ := ih _ _ h
      exact ⟨{ Role := m.Role, Content := items } :: tail, by simp [hout],
        List.Forall₂.cons ⟨rfl, hc⟩ hrel⟩
    | err e => rw [hc] at h; cases h
    | panic q => rw [hc] at h; cases h

/-- A successful `ConvertOpenAIToPrivateAPI` call pairs every produced message
with the inbound message at its index. -/
theorem convert_ok_forall₂ (req : OpenAIRequest) (cfg : Config) (r : PrivateAPIRequest)
    (h : ConvertOpenAIToPrivateAPI (some req) (some cfg) = .ok r) :
    List.Forall₂
      (fun m o => o.Role = m.Role ∧ convertToTextRequest_content m.Content = .ok o.Content)
      req.Messages r.messages := by
  obtain ⟨_, hm, _⟩ := convert_ok_inv req cfg r h
  obtain ⟨tail, hout, hrel⟩ := messages_ok_forall₂ req.Messages [] r.messages hm
  simpa [hout] using hrel

/-- A successful content switch copies its content. -/
theorem content_ok_copied (content : JValue) (out : List PrivateAPIContentItem)
    (h : convertToTextRequest_content content = .ok out) : ContentCopied content out := by
  constructor
  · intro s hs
    subst hs
    exact content_str_ok s out h
  · intro items hitems
    subst hitems
    exact (content_arr_ok items out h).imp (fun _ _ hit => item_ok_fields _ _ hit)

/-- The copy of a map element satisfies the content-item invariant exactly
when the element has the shape the invariant asks for. -/
theorem invariant_of_copy (contentMap : List (String × JValue)) (it : PrivateAPIContentItem)
    (h : ItemCopiesElement contentMap it) :
    contentItemInvariant it = elementWellShaped contentMap := by
  obtain ⟨ht, htext, hurl⟩ := h
  by_cases himg : it.Type_ = "input_image"
  · have htxt : (it.Type_ == "text") = false := by rw [himg]; decide
    simp only [contentItemInvariant, elementWellShaped, textPopulated, imageURLPopulated,
      isImageItem, isTextItem, ht, htext, hurl, bne, htxt, himg, beq_self_eq_true]
    cases elementText contentMap == "" <;> cases elementImageURL contentMap <;> rfl
  · have himg' : (it.Type_ == "input_image") = false := by simpa using himg
    simp only [contentItemInvariant, elementWellShaped, textPopulated, imageURLPopulated,
      isImageItem, isTextItem, ht, htext, hurl, bne, himg']
    cases it.Type_ == "text" <;> cases elementText contentMap == "" <;>
      cases elementImageURL contentMap <;> rfl

/-- The array elements that are maps, as a list of maps. -/
theorem mem_filterMap_asObject (items : List JValue) (contentMap : List (String × JValue)) :
    contentMap ∈ items.filterMap asObject ↔ JValue.obj contentMap ∈ items := by
  rw [List.mem_filterMap]
  constructor
  · rintro ⟨a, ha, hobj⟩
    cases a with
    | obj m =>
      simp only [asObject, Option.some.injEq] at hobj
      subst hobj
      exact ha
    | null | bool | num | str | arr => cases hobj
  · intro h
    exact ⟨_, h, rfl⟩

/-- The content loop passes over the elements that are not maps: it runs as on
the array of the map elements alone. -/
theorem items_drop_non_objects (items : List JValue) :
    ∀ acc, convertToTextRequest_items items acc
      = convertToTextRequest_items ((items.filterMap asObject).map JValue.obj) acc := by
  induction items with
  | nil => intro acc; rfl
  | cons item rest ih =>
    intro acc
    cases item with
    | obj contentMap =>
      simp only [List.filterMap_cons, asObject, List.map_cons, convertToTextRequest_items]
      cases convertToTextRequest_item contentMap with
      | ok it => exact ih _
      | err e => rfl
      | panic q => rfl
    | null | bool | num | str | arr =>
      simp only [List.filterMap_cons, asObject, convertToTextRequest_items]
      exact ih _

/-- The length of a successfully built content list. -/
theorem content_ok_length (content : JValue) (out : List PrivateAPIContentItem)
    (h : convertToTextRequest_content content = .ok out) :
    out.length = normalizedLength content := by
  cases content with
  | str s => rw [content_str_ok s out h]; rfl
  | arr items => exact (content_arr_ok items out h).length_eq.symm
  | null | bool | num | obj => simp [convertToTextRequest_content] at h

/-- The checked string assertion succeeds exactly on a bound string. -/
theorem assertString_eq_some (v : Option JValue) (s : String) :
    assertString v = some s ↔ v = some (.str s) := by
  cases v with
  | none => simp [assertString]
  | some x => cases x <;> simp [assertString]

/-- On every request, service name and configuration, nil pointers included,
`convertToTextRequest` and `convertToMultiModalRequest` end alike: both return
the same error, or both panic alike, or both succeed with equal message lists,
agent id, secret key, service name and stream flag. -/
theorem converters_agree (openAIReq : Option OpenAIRequest) (serviceName : String)
    (config : Option Config) :
    (∃ e, convertToTextRequest openAIReq serviceName config = .err e ∧
      convertToMultiModalRequest openAIReq serviceName config = .err e) ∨
    (∃ q, convertToTextRequest openAIReq serviceName config = .panic q ∧
      convertToMultiModalRequest openAIReq serviceName config = .panic q) ∨
    (∃ t m, convertToTextRequest openAIReq serviceName config = .ok t ∧
      convertToMultiModalRequest openAIReq serviceName config = .ok m ∧
      m.Messages = t.Messages ∧ m.AgentID = t.AgentID ∧ m.SecretKey = t.SecretKey ∧
      m.ServiceName = t.ServiceName ∧ m.Stream = t.Stream) := by
  cases openAIReq with
  | none => exact Or.inr (Or.inl ⟨panicNilDeref, rfl, rfl⟩)
  | some req =>
    simp only [convertToTextRequest, convertToMultiModalRequest, multiModal_messages_eq]
    by_cases hl : req.Messages.length = 0
    · simp only [if_pos hl]
      exact Or.inl ⟨errEmptyMessages, rfl, rfl⟩
    · simp only [if_neg hl]
      cases convertToTextRequest_messages req.Messages [] with
      | err e => exact Or.inl ⟨e, rfl, rfl⟩
      | panic q => exact Or.inr (Or.inl ⟨q, rfl, rfl⟩)
      | ok messages =>
        cases config with
        | none => exact Or.inr (Or.inl ⟨panicNilDeref, rfl, rfl⟩)
        | some cfg => exact Or.inr (Or.inr ⟨_, _, rfl, rfl, rfl, rfl, rfl, rfl, rfl⟩)

/-! # Properties -/

/-- C1: when `ConvertOpenAIToPrivateAPI` succeeds, the result is the multimodal
request exactly when some content item of the produced messages is an image
item (kind `"input_image"`), it is the text request exactly when no produced
content item is an image item, and the detector's verdict on the raw request
equals the verdict computed on the produced message list. -/
theorem convert_shape_iff_image (req : OpenAIRequest) (cfg : Config)
    (r : PrivateAPIRequest)
    (h : ConvertOpenAIToPrivateAPI (some req) (some cfg) = .ok r) :
    (r.isMultiModal = true ↔
      ∃ m ∈ r.messages, ∃ it ∈ m.Content, it.Type_ = "input_image") ∧
    (r.isText = true ↔
      ∀ m ∈ r.messages, ∀ it ∈ m.Content, it.Type_ ≠ "input_image") ∧
    hasImage req.Messages = normalizedHasImage r.messages := by
  obtain ⟨_, hm, hs, _⟩ := convert_ok_inv req cfg r h
  have hv : normalizedHasImage r.messages = hasImage req.Messages := by
    rw [messages_ok_image req.Messages [] r.messages hm]
    simp [normalizedHasImage]
  have hex : normalizedHasImage r.messages = true ↔
      ∃ m ∈ r.messages, ∃ it ∈ m.Content, it.Type_ = "input_image" := by
    simp [normalizedHasImage, isImageItem]
  refine ⟨?_, ?_, hv.symm⟩
  · rw [hs, ← hv]; exact hex
  · have ht : r.isText = !r.isMultiModal := by cases r <;> rfl
    rw [ht, hs, ← hv]
    constructor
    · intro hn m hmem it hit heq
      have : normalizedHasImage r.messages = true := hex.mpr ⟨m, hmem, it, hit, heq⟩
      rw [this] at hn
      cases hn
    · intro hall
      cases hb : normalizedHasImage r.messages
      · rfl
      · obtain ⟨m, hmem, it, hit, heq⟩ := hex.mp hb
        exact absurd heq (hall m hmem it hit)

/-- Witness of C1 on a request holding one image element. -/
theorem convert_shape_iff_image_witness :
    ConvertOpenAIToPrivateAPI (some sampleImageRequest) (some sampleConfig)
        = .ok sampleImageResult ∧
      ((sampleImageResult.isMultiModal = true ↔
          ∃ m ∈ sampleImageResult.messages, ∃ it ∈ m.Content, it.Type_ = "input_image") ∧
        (sampleImageResult.isText = true ↔
          ∀ m ∈ sampleImageResult.messages, ∀ it ∈ m.Content, it.Type_ ≠ "input_image") ∧
        hasImage sampleImageRequest.Messages
          = normalizedHasImage sampleImageResult.messages) :=
  ⟨by decide,
    convert_shape_iff_image sampleImageRequest sampleConfig sampleImageResult (by decide)⟩

/-- C2: when `ConvertOpenAIToPrivateAPI` succeeds, in either shape, the
produced message list has the length of the inbound list, and the role of the
produced message at every index is the role of the inbound message at that
index: the role sequences are equal. -/
theorem convert_preserves_roles (req : OpenAIRequest) (cfg : Config)
    (r : PrivateAPIRequest)
    (h : ConvertOpenAIToPrivateAPI (some req) (some cfg) = .ok r) :
    r.messages.length = req.Messages.length ∧
    r.messages.map (fun m => m.Role) = req.Messages.map (fun m => m.Role) ∧
    ∀ i : Nat, (r.messages[i]?).map (fun m => m.Role)
      = (req.Messages[i]?).map (fun m => m.Role) := by
  obtain ⟨_, hm, _⟩ := convert_ok_inv req cfg r h
  have hroles : r.messages.map (fun m => m.Role) = req.Messages.map (fun m => m.Role) := by
    simpa using messages_ok_roles req.Messages [] r.messages hm
  refine ⟨?_, hroles, ?_⟩
  · simpa using congrArg List.length hroles
  · intro i
    rw [← List.getElem?_map, ← List.getElem?_map, hroles]

/-- Witness of C2 on the two sample requests, one of each shape. -/
theorem convert_preserves_roles_witness :
    ConvertOpenAIToPrivateAPI (some sampleTextRequest) (some sampleConfig)
        = .ok sampleTextResult ∧
      (sampleTextResult.messages.length = sampleTextRequest.Messages.length ∧
        sampleTextResult.messages.map (fun m => m.Role)
          = sampleTextRequest.Messages.map (fun m => m.Role) ∧
        ∀ i : Nat, (sampleTextResult.messages[i]?).map (fun m => m.Role)
          = (sampleTextRequest.Messages[i]?).map (fun m => m.Role)) :=
  ⟨by decide,
    convert_preserves_roles sampleTextRequest sampleConfig sampleTextResult (by decide)⟩

/-- C3: for every string `S`, the content switch of either converter gives the
same one-item list `[text S]` on the plain string `S` and on the one-element
structured sequence holding the text element of `S`; hence two requests that
differ only in writing one message's content in one form or the other are
translated to the same result. -/
theorem string_content_eq_single_text_element (S : String) :
    convertToTextRequest_content (.str S)
      = .ok [{ Type_ := "text", Text := S, ImageURL := none }] ∧
    convertToTextRequest_content (.arr [textElement "text" S])
      = convertToTextRequest_content (.str S) ∧
    convertToMultiModalRequest_content (.arr [textElement "text" S])
      = convertToMultiModalRequest_content (.str S) ∧
    ∀ (cfg : Config) (model role : String) (stream : Bool) (pre post : List OpenAIInput),
      ConvertOpenAIToPrivateAPI
          (some { Model := model, Stream := stream
                  Messages := pre ++ { Role := role, Content := .str S } :: post })
          (some cfg)
        = ConvertOpenAIToPrivateAPI
          (some { Model := model, Stream := stream
                  Messages :=
                    pre ++ { Role := role, Content := .arr [textElement "text" S] } :: post })
          (some cfg) := by
  have h₁ : convertToTextRequest_content (.arr [textElement "text" S])
      = convertToTextRequest_content (.str S) := rfl
  refine ⟨rfl, h₁, ?_, ?_⟩
  · rw [multiModal_content_eq, multiModal_content_eq, h₁]
  · intro cfg model role stream pre post
    apply convert_congr
    · rfl
    · rfl
    · exact hasImage_congr { Role := role, Content := .str S }
        { Role := role, Content := .arr [textElement "text" S] } post rfl pre
    · simp
    · exact messages_congr { Role := role, Content := .str S }
        { Role := role, Content := .arr [textElement "text" S] } post rfl h₁.symm pre []

/-- C4: on the message list `[untypedElementMessage, numberMessage]`, whose
second content is the number 42, `ConvertOpenAIToPrivateAPI` does not return
the unsupported-content error: it panics at the first message, whose structured
element has no `"type"`. On `[numberMessage]` alone it returns the error. -/
theorem convert_number_content_after_untyped_element :
    ConvertOpenAIToPrivateAPI
        (some { Model := "gpt-4", Stream := false
                Messages := [untypedElementMessage, numberMessage] })
        (some sampleConfig)
      = .panic panicTypeAssertion ∧
    ConvertOpenAIToPrivateAPI
        (some { Model := "gpt-4", Stream := false, Messages := [numberMessage] })
        (some sampleConfig)
      = .err errUnsupportedContent := by
  constructor <;> rfl

/-- C5: on an empty message list, whatever the model, the stream flag, the
service name and the configuration, `ConvertOpenAIToPrivateAPI`,
`convertToTextRequest` and `convertToMultiModalRequest` each return the
empty-message-list error and no request; the two converters do so before they
read the configuration, even through a nil pointer. -/
theorem empty_messages_error (model serviceName : String) (stream : Bool) (cfg : Config)
    (config : Option Config) :
    ConvertOpenAIToPrivateAPI
        (some { Model := model, Messages := [], Stream := stream }) (some cfg)
      = .err errEmptyMessages ∧
    convertToTextRequest
        (some { Model := model, Messages := [], Stream := stream }) serviceName config
      = .err errEmptyMessages ∧
    convertToMultiModalRequest
        (some { Model := model, Messages := [], Stream := stream }) serviceName config
      = .err errEmptyMessages := by
  refine ⟨?_, ?_, ?_⟩ <;>
    simp [ConvertOpenAIToPrivateAPI, convertToTextRequest, convertToMultiModalRequest,
      hasImage, GoResult.wrap]

/-- C6: on a structured element that is a map without a string `"type"`
(absent, or bound to a number) the translation does not return an error: both
converters and `ConvertOpenAIToPrivateAPI`, in the text and in the multimodal
branch, panic. -/
theorem convert_untyped_element_panics :
    ConvertOpenAIToPrivateAPI
        (some { Model := "gpt-4", Stream := false, Messages := [untypedElementMessage] })
        (some sampleConfig)
      = .panic panicTypeAssertion ∧
    ConvertOpenAIToPrivateAPI
        (some { Model := "gpt-4", Stream := false
                Messages := [imageMessage, numericTypeMessage] })
        (some sampleConfig)
      = .panic panicTypeAssertion ∧
    (convertToTextRequest
        (some { Model := "gpt-4", Stream := false, Messages := [untypedElementMessage] })
        "svc-large" (some sampleConfig)).isErr = false ∧
    (convertToMultiModalRequest
        (some { Model := "gpt-4", Stream := false, Messages := [untypedElementMessage] })
        "svc-large" (some sampleConfig)).isPanic = true := by
  refine ⟨?_, ?_, ?_, ?_⟩ <;> rfl

/-- C7: when `ConvertOpenAIToPrivateAPI` succeeds, the result's service name is
the value `ModelMap` binds to the request's model when the model is a key of
the map, and the request's model verbatim when it is not a key, which includes
the nil map and the empty map. -/
theorem convert_service_name (req : OpenAIRequest) (cfg : Config)
    (r : PrivateAPIRequest)
    (h : ConvertOpenAIToPrivateAPI (some req) (some cfg) = .ok r) :
    (∀ m mappedName, cfg.ModelMap = some m → m.lookup req.Model = some mappedName →
      r.serviceName = mappedName) ∧
    (∀ m, cfg.ModelMap = some m → m.lookup req.Model = none →
      r.serviceName = req.Model) ∧
    (cfg.ModelMap = none → r.serviceName = req.Model) ∧
    (cfg.ModelMap = some [] → r.serviceName = req.Model) := by
  obtain ⟨_, _, _, hsn, _⟩ := convert_ok_inv req cfg r h
  rw [hsn]
  refine ⟨?_, ?_, ?_, ?_⟩
  · intro m mappedName hm hk
    simp [resolveServiceName, hm, hk]
  · intro m hm hk
    simp [resolveServiceName, hm, hk]
  · intro hm
    simp [resolveServiceName, hm]
  · intro hm
    simp [resolveServiceName, hm]

/-- Witness of C7: a mapped model is replaced by its service name. -/
theorem convert_service_name_witness :
    ConvertOpenAIToPrivateAPI (some sampleImageRequest) (some sampleConfig)
        = .ok sampleImageResult ∧
      sampleConfig.ModelMap = some [("gpt-4", "svc-large")] ∧
      sampleImageRequest.Model = "gpt-4" ∧
      sampleImageResult.serviceName = "svc-large" :=
  ⟨by decide, rfl, rfl,
    (convert_service_name sampleImageRequest sampleConfig sampleImageResult (by decide)).1
      [("gpt-4", "svc-large")] "svc-large" rfl (by decide)⟩

/-- C8, as stated, fails: of three well-formed data frames whose second line
is longer than the scanner's buffer, only the first is relayed; the loop ends
at the second line and the third frame is never read. -/
theorem stream_stops_at_oversized_frame :
    (∀ p ∈ [ ("msg=Hel", sampleFrame "Hel"),
             ("msg=" ++ oversizedText, sampleFrame oversizedText),
             ("msg=lo", sampleFrame "lo") ],
      sampleUnmarshal p.1 = some p.2) ∧
    streamRelay sampleUnmarshal sampleMarshal "sess-1" 1700000000
        ["data:msg=Hel", "data:" ++ ("msg=" ++ oversizedText), "data:msg=lo"]
      = ["data: sess-1@1700000000:Hel\n\n"] := by
  constructor
  · intro p hmem
    simp only [List.mem_cons, List.mem_singleton, List.not_mem_nil, or_false] at hmem
    rcases hmem with rfl | rfl | rfl
    · rfl
    · exact sampleUnmarshal_msg oversizedText
    · rfl
  · have hbig : MaxScanTokenSize ≤ ("data:" ++ ("msg=" ++ oversizedText)).utf8ByteSize := by
      rw [← String.append_assoc]
      exact oversized_line _
    have hfit : ∀ raw ∈ ["data:msg=Hel"], raw.utf8ByteSize < MaxScanTokenSize := by decide
    have hstop := streamRelay_oversized sampleUnmarshal sampleMarshal "sess-1" 1700000000
      ["data:msg=Hel"] ["data:msg=lo"] ("data:" ++ ("msg=" ++ oversizedText)) hfit hbig
    exact hstop.trans (by decide)

/-- C8, amended: when the backend body is `n` well-formed data frames, each a
line `data:` followed by a payload that (its carriage return dropped) parses to
the frame `Fi`, and every line fits the scanner's buffer, the relay writes
exactly `n` events, in the order of the frames, the `i`-th being the bytes
`data: `, the serialization of the chunk built for `Fi` and two newlines; that
chunk has the one delta `Fi.ResponseMessage`, and every chunk has the session
id and the creation timestamp fixed before the loop. Nothing is written after
the last frame. At a line that does not fit the buffer the relay ends: the
frames before it are relayed and nothing after. (`json.Marshal` is taken to
succeed on every chunk.) -/
theorem stream_one_chunk_per_frame (unmarshal : String → Option PrivateAPISSEResponse)
    (marshal : OpenAISSEResponse → Option String) (enc : OpenAISSEResponse → String)
    (hm : ∀ r, marshal r = some (enc r)) (sessionId : String) (created : Int)
    (frames : List (String × PrivateAPISSEResponse))
    (hp : ∀ p ∈ frames, unmarshal (dropCR p.1) = some p.2)
    (hfit : ∀ p ∈ frames, ("data:" ++ p.1).utf8ByteSize < MaxScanTokenSize) :
    streamRelay unmarshal marshal sessionId created (frames.map (fun p => "data:" ++ p.1))
      = frames.map
          (fun p => "data: " ++ enc (streamChunk sessionId created p.2) ++ "\n\n") ∧
    (streamRelay unmarshal marshal sessionId created
      (frames.map (fun p => "data:" ++ p.1))).length = frames.length ∧
    (∀ p ∈ frames,
      (streamChunk sessionId created p.2).ID = sessionId ∧
      (streamChunk sessionId created p.2).Created = created ∧
      (streamChunk sessionId created p.2).Choices.map (fun c => c.Delta.Content)
        = [p.2.ResponseMessage]) ∧
    (∀ (big : String) (after : List String), MaxScanTokenSize ≤ big.utf8ByteSize →
      streamRelay unmarshal marshal sessionId created
          (frames.map (fun p => "data:" ++ p.1) ++ big :: after)
        = frames.map
            (fun p => "data: " ++ enc (streamChunk sessionId created p.2) ++ "\n\n")) := by
  have hfit' : ∀ raw ∈ frames.map (fun p => "data:" ++ p.1),
      raw.utf8ByteSize < MaxScanTokenSize := by
    intro raw hraw
    obtain ⟨p, hpmem, rfl⟩ := List.mem_map.mp hraw
    exact hfit p hpmem
  have key : streamRelay unmarshal marshal sessionId created
      (frames.map (fun p => "data:" ++ p.1))
      = frames.map
          (fun p => "data: " ++ enc (streamChunk sessionId created p.2) ++ "\n\n") := by
    rw [streamRelay_eq unmarshal marshal enc hm, scannedLines_of_fit _ hfit']
    clear hfit hfit'
    induction frames with
    | nil => rfl
    | cons p rest ih =>
      have hp₁ : unmarshal (dropCR p.1) = some p.2 := hp p (List.mem_cons_self _ _)
      have ih' := ih (fun q hq => hp q (List.mem_cons_of_mem _ hq))
      simp only [List.map_cons, List.filterMap_cons, dropCR_dataLine,
        acceptedFrame_dataLine, hp₁]
      rw [ih']
  refine ⟨key, ?_, ?_, ?_⟩
  · rw [key, List.length_map]
  · intro p _
    exact ⟨rfl, rfl, rfl⟩
  · intro big after hbig
    rw [streamRelay_oversized unmarshal marshal sessionId created _ after big hfit' hbig, key]

/-- Witness of the amended C8 on a body of two frames, the second ended by a
carriage return: the two events, byte for byte. -/
theorem stream_one_chunk_per_frame_witness :
    (∀ r, sampleMarshal r = some (sampleEncode r)) ∧
      (∀ p ∈ [("msg=Hel", sampleFrame "Hel"), ("msg=lo\r", sampleFrame "lo")],
        sampleUnmarshal (dropCR p.1) = some p.2) ∧
      (∀ p ∈ [("msg=Hel", sampleFrame "Hel"), ("msg=lo\r", sampleFrame "lo")],
        ("data:" ++ p.1).utf8ByteSize < MaxScanTokenSize) ∧
      streamRelay sampleUnmarshal sampleMarshal "sess-1" 1700000000
          ["data:msg=Hel", "data:msg=lo\r"]
        = ["data: sess-1@1700000000:Hel\n\n", "data: sess-1@1700000000:lo\n\n"] :=
  have hp : ∀ p ∈ [("msg=Hel", sampleFrame "Hel"), ("msg=lo\r", sampleFrame "lo")],
      sampleUnmarshal (dropCR p.1) = some p.2 := by
    intro p hmem
    simp only [List.mem_cons, List.mem_singleton, List.not_mem_nil, or_false] at hmem
    rcases hmem with rfl | rfl <;> rfl
  have hfit : ∀ p ∈ [("msg=Hel", sampleFrame "Hel"), ("msg=lo\r", sampleFrame "lo")],
      ("data:" ++ p.1).utf8ByteSize < MaxScanTokenSize := by
    intro p hmem
    simp only [List.mem_cons, List.mem_singleton, List.not_mem_nil, or_false] at hmem
    rcases hmem with rfl | rfl <;> decide
  ⟨fun _ => rfl, hp, hfit,
    ((stream_one_chunk_per_frame sampleUnmarshal sampleMarshal sampleEncode (fun _ => rfl)
      "sess-1" 1700000000 [("msg=Hel", sampleFrame "Hel"), ("msg=lo\r", sampleFrame "lo")]
      hp hfit).1).trans (by decide)⟩

/-- C9, as stated, fails: in the stream `F1, <malformed>, F2` whose malformed
data line is longer than the scanner's buffer, that line stops the relay: only
the chunk of `F1` is written, while the stream `F1, F2` gives two chunks. -/
theorem stream_stops_at_oversized_line :
    acceptedFrame sampleUnmarshal ("data:" ++ oversizedText) = none ∧
    streamRelay sampleUnmarshal sampleMarshal "sess-1" 1700000000
        ["data:msg=Hel", "data:" ++ oversizedText, "data:msg=lo"]
      = ["data: sess-1@1700000000:Hel\n\n"] ∧
    streamRelay sampleUnmarshal sampleMarshal "sess-1" 1700000000
        ["data:msg=Hel", "data:msg=lo"]
      = ["data: sess-1@1700000000:Hel\n\n", "data: sess-1@1700000000:lo\n\n"] := by
  refine ⟨?_, ?_, by decide⟩
  · rw [acceptedFrame_dataLine]
    exact sampleUnmarshal_oversizedText
  · have hfit : ∀ raw ∈ ["data:msg=Hel"], raw.utf8ByteSize < MaxScanTokenSize := by decide
    have hstop := streamRelay_oversized sampleUnmarshal sampleMarshal "sess-1" 1700000000
      ["data:msg=Hel"] ["data:msg=lo"] ("data:" ++ oversizedText) hfit (oversized_line _)
    exact hstop.trans (by decide)

/-- C9, amended: for every sequence of backend lines that fit the scanner's
buffer, the events written are, in order, those of exactly the lines that
(carriage return dropped) are not empty, carry the `data:` prefix and whose
payload parses, each event being the bytes `data: `, the serialized chunk and
two newlines. A line is passed over exactly when it is empty, lacks the prefix
or does not parse, and passing over it changes nothing for the lines around
it. A line that does not fit the buffer ends the relay: the lines before it
are relayed and nothing after. (`json.Marshal` is taken to succeed on every
chunk.) -/
theorem stream_skips_unaccepted_lines (unmarshal : String → Option PrivateAPISSEResponse)
    (marshal : OpenAISSEResponse → Option String) (enc : OpenAISSEResponse → String)
    (hm : ∀ r, marshal r = some (enc r)) (sessionId : String) (created : Int) :
    (∀ raws : List String, (∀ raw ∈ raws, raw.utf8ByteSize < MaxScanTokenSize) →
      streamRelay unmarshal marshal sessionId created raws
        = ((raws.map dropCR).filterMap (acceptedFrame unmarshal)).map
            (fun f => "data: " ++ enc (streamChunk sessionId created f) ++ "\n\n")) ∧
    (∀ line, acceptedFrame unmarshal line = none ↔
      (line = "" ∨ HasPrefix line "data:" = false ∨
        unmarshal (TrimPrefix line "data:") = none)) ∧
    (∀ (before after : List String) (raw : String),
      raw.utf8ByteSize < MaxScanTokenSize →
      (dropCR raw = "" ∨ HasPrefix (dropCR raw) "data:" = false ∨
        unmarshal (TrimPrefix (dropCR raw) "data:") = none) →
      streamRelay unmarshal marshal sessionId created (before ++ raw :: after)
        = streamRelay unmarshal marshal sessionId created (before ++ after)) ∧
    (∀ (before after : List String) (big : String),
      (∀ raw ∈ before, raw.utf8ByteSize < MaxScanTokenSize) →
      MaxScanTokenSize ≤ big.utf8ByteSize →
      streamRelay unmarshal marshal sessionId created (before ++ big :: after)
        = streamRelay unmarshal marshal sessionId created before) := by
  have hnone : ∀ line, acceptedFrame unmarshal line = none ↔
      (line = "" ∨ HasPrefix line "data:" = false ∨
        unmarshal (TrimPrefix line "data:") = none) := by
    intro line
    unfold acceptedFrame
    by_cases he : line = ""
    · simp [he]
    · cases hpre : HasPrefix line "data:" <;> simp [he, hpre]
  refine ⟨?_, hnone, ?_, ?_⟩
  · intro raws hfit
    rw [streamRelay_eq unmarshal marshal enc hm, scannedLines_of_fit raws hfit]
  · intro before after raw hfit hline
    rw [streamRelay_eq unmarshal marshal enc hm, streamRelay_eq unmarshal marshal enc hm,
      scannedLines_skip (acceptedFrame unmarshal) raw hfit ((hnone _).mpr hline)]
  · intro before after big hfit hbig
    exact streamRelay_oversized unmarshal marshal sessionId created before after big hfit hbig

/-- Witness of the amended C9: the stream `F1, <malformed>, <empty>, <comment>,
F2` is relayed as the two events of `F1` and `F2`, byte for byte. -/
theorem stream_skips_unaccepted_lines_witness :
    (∀ r, sampleMarshal r = some (sampleEncode r)) ∧
      (∀ raw ∈ ["data:msg=Hel", "data:oops", "", ": keep-alive", "data:msg=lo"],
        raw.utf8ByteSize < MaxScanTokenSize) ∧
      streamRelay sampleUnmarshal sampleMarshal "sess-1" 1700000000
          ["data:msg=Hel", "data:oops", "", ": keep-alive", "data:msg=lo"]
        = ["data: sess-1@1700000000:Hel\n\n", "data: sess-1@1700000000:lo\n\n"] :=
  ⟨fun _ => rfl, by decide,
    ((stream_skips_unaccepted_lines sampleUnmarshal sampleMarshal sampleEncode
      (fun _ => rfl) "sess-1" 1700000000).1
      ["data:msg=Hel", "data:oops", "", ": keep-alive", "data:msg=lo"] (by decide)).trans
      (by decide)⟩

/-- C10, as stated, fails: on the reply text `a<TAB>b` the synthesized
completion-token count is 1 while the text has 2 whitespace tokens, and on
`a  b` (two spaces) it is 3 while the text has 2 whitespace tokens. -/
theorem completionTokens_ne_whitespaceTokenCount :
    (bufferedReply "id-1" 1700000000 (sampleFrame "a\tb")).Usage.CompletionTokens = 1 ∧
    whitespaceTokenCount "a\tb" = 2 ∧
    (bufferedReply "id-1" 1700000000 (sampleFrame "a  b")).Usage.CompletionTokens = 3 ∧
    whitespaceTokenCount "a  b" = 2 ∧
    ¬ ∀ (id : String) (now : Int) (privateResp : PrivateAPISSEResponse),
      (bufferedReply id now privateResp).Usage.CompletionTokens
        = (whitespaceTokenCount privateResp.ResponseMessage : Int) := by
  refine ⟨by decide, by decide, by decide, by decide, ?_⟩
  intro h
  have h' := h "id-1" 1700000000 (sampleFrame "a\tb")
  revert h'
  decide

/-- C10, amended: for every reply text the synthesized completion-token count
is the number of pieces of the text split at each single space, one more than
the number of spaces in it; it is the whitespace-token count of the text when
the text is one or more non-empty whitespace-free words joined by single
spaces. -/
theorem completionTokens_split_at_spaces (id : String) (now : Int)
    (privateResp : PrivateAPISSEResponse) :
    (bufferedReply id now privateResp).Usage.CompletionTokens
      = ((1 + privateResp.ResponseMessage.data.count ' ' : Nat) : Int) ∧
    ∀ words : List (List Char), words ≠ [] →
      (∀ w ∈ words, w ≠ [] ∧ ∀ c ∈ w, c.isWhitespace = false) →
      privateResp.ResponseMessage.data = joinWithSpaces words →
      (bufferedReply id now privateResp).Usage.CompletionTokens
          = (whitespaceTokenCount privateResp.ResponseMessage : Int) ∧
        whitespaceTokenCount privateResp.ResponseMessage = words.length := by
  refine ⟨completionTokens_eq_count id now privateResp, ?_⟩
  intro words hne hw hdata
  have hsp : ∀ w ∈ words, ' ' ∉ w := by
    intro w hmem hin
    have := (hw w hmem).2 ' ' hin
    revert this
    decide
  have hcount : whitespaceTokenCount privateResp.ResponseMessage = words.length := by
    rw [whitespaceTokenCount, hdata, whitespaceTokensAux_joinWithSpaces words hw]
  refine ⟨?_, hcount⟩
  rw [hcount]
  simp only [bufferedReply, Split, List.length_map, hdata,
    splitChars_joinWithSpaces words hne hsp]

/-- Witness of the amended C10 on the text `hello big world`. -/
theorem completionTokens_split_at_spaces_witness :
    ["hello".data, "big".data, "world".data] ≠ [] ∧
      (∀ w ∈ ["hello".data, "big".data, "world".data],
        w ≠ [] ∧ ∀ c ∈ w, c.isWhitespace = false) ∧
      (sampleFrame "hello big world").ResponseMessage.data
        = joinWithSpaces ["hello".data, "big".data, "world".data] ∧
      (bufferedReply "id-1" 1700000000 (sampleFrame "hello big world")).Usage.CompletionTokens
        = (whitespaceTokenCount (sampleFrame "hello big world").ResponseMessage : Int) ∧
      whitespaceTokenCount (sampleFrame "hello big world").ResponseMessage = 3 :=
  ⟨by decide, by decide, by decide,
    (completionTokens_split_at_spaces "id-1" 1700000000 (sampleFrame "hello big world")).2
      ["hello".data, "big".data, "world".data] (by decide) (by decide) (by decide)⟩

/-- C11: for every backend reply, the usage block of the buffered reply has
the prompt-token count 13, a total that is the prompt count plus the completion
count, cache-hit and cached-token counts 0, and a cache-miss count equal to the
prompt count. -/
theorem buffered_usage_block (id : String) (now : Int) (privateResp : PrivateAPISSEResponse) :
    (bufferedReply id now privateResp).Usage.PromptTokens = 13 ∧
    (bufferedReply id now privateResp).Usage.TotalTokens
      = (bufferedReply id now privateResp).Usage.PromptTokens
        + (bufferedReply id now privateResp).Usage.CompletionTokens ∧
    (bufferedReply id now privateResp).Usage.PromptCacheHitTokens = 0 ∧
    (bufferedReply id now privateResp).Usage.PromptTokensDetails.CachedTokens = 0 ∧
    (bufferedReply id now privateResp).Usage.PromptCacheMissTokens
      = (bufferedReply id now privateResp).Usage.PromptTokens :=
  ⟨rfl, rfl, rfl, rfl, rfl⟩

/-- C12: for every parsed backend reply, the buffered reply has exactly one
choice, of index 0, finish reason `"stop"` and message content equal to the
reply's `ResponseMessage` unchanged, under the fixed model label and
fingerprint. -/
theorem buffered_single_choice (id : String) (now : Int) (privateResp : PrivateAPISSEResponse) :
    (bufferedReply id now privateResp).Choices
      = [ { Index := 0
            Message := { Role := "assistant", Content := privateResp.ResponseMessage }
            Delta := Delta.zero
            LogProbs := none
            FinishReason := some "stop" } ] ∧
    (bufferedReply id now privateResp).Choices.length = 1 ∧
    (bufferedReply id now privateResp).Choices.map (fun c => c.Message.Content)
      = [privateResp.ResponseMessage] ∧
    (bufferedReply id now privateResp).Model = "deepseek-chat" ∧
    (bufferedReply id now privateResp).SystemFingerprint = "fp_8802369eaa_prod0425fp8" ∧
    (bufferedReply id now privateResp).Object = "chat.completion" ∧
    (bufferedReply id now privateResp).ID = id ∧
    (bufferedReply id now privateResp).Created = now :=
  ⟨rfl, rfl, rfl, rfl, rfl, rfl, rfl, rfl⟩

/-- C13, as stated, fails: `mixedItemsRequest` is translated, and of its two
produced items, both of kind `"input_image"`, the first has a text and an image
URL and the second has neither. -/
theorem produced_items_break_invariant :
    ConvertOpenAIToPrivateAPI (some mixedItemsRequest) (some sampleConfig)
      = .ok mixedItemsResult ∧
    mixedItemsResult.messages.map (fun m => m.Content.map contentItemInvariant)
      = [[false, false]] ∧
    mixedItemsResult.messages.map
        (fun m => m.Content.map (fun it => (textPopulated it, imageURLPopulated it)))
      = [[(true, true), (false, false)]] := by
  refine ⟨by decide, by decide, by decide⟩

/-- C13, amended: when `ConvertOpenAIToPrivateAPI` succeeds, every produced
message copies the inbound message at its index. A string content gives the
one item of kind `"text"` with that text and no image URL. An array content
gives, per map element and in order, the item whose kind is the element's type
string, whose text is the element's string `"text"` (empty without one) and
whose image URL is the element's `image_url.url` string (nil without one), the
three read independently. So the text item of a string satisfies the
content-item invariant exactly when the string is not empty, and the copy of an
element exactly when the element has the shape the invariant asks for. -/
theorem produced_items_copy_content (req : OpenAIRequest) (cfg : Config)
    (r : PrivateAPIRequest)
    (h : ConvertOpenAIToPrivateAPI (some req) (some cfg) = .ok r) :
    List.Forall₂ (fun m o => ContentCopied m.Content o.Content) req.Messages r.messages ∧
    (∀ s : String, contentItemInvariant (textItem s) = (s != "")) ∧
    (∀ contentMap it, ItemCopiesElement contentMap it →
      contentItemInvariant it = elementWellShaped contentMap) := by
  refine ⟨?_, ?_, invariant_of_copy⟩
  · exact (convert_ok_forall₂ req cfg r h).imp
      (fun m o hmo => content_ok_copied m.Content o.Content hmo.2)
  · intro s
    simp [contentItemInvariant, textItem, textPopulated, imageURLPopulated, isImageItem,
      isTextItem]

/-- Witness of the amended C13 on the request holding a text and an image
element. -/
theorem produced_items_copy_content_witness :
    ConvertOpenAIToPrivateAPI (some sampleImageRequest) (some sampleConfig)
        = .ok sampleImageResult ∧
      List.Forall₂ (fun m o => ContentCopied m.Content o.Content)
        sampleImageRequest.Messages sampleImageResult.messages :=
  ⟨by decide,
    (produced_items_copy_content sampleImageRequest sampleConfig sampleImageResult
      (by decide)).1⟩

/-- C14, as stated, fails: the element of type `"input_text"` with text `hi`
is normalized, by either converter, to an item whose kind is `"input_text"`,
not `"text"`. -/
theorem non_image_element_keeps_type :
    convertToTextRequest_content (.arr [textElement "input_text" "hi"])
      = .ok [{ Type_ := "input_text", Text := "hi", ImageURL := none }] ∧
    convertToMultiModalRequest_content (.arr [textElement "input_text" "hi"])
      = .ok [{ Type_ := "input_text", Text := "hi", ImageURL := none }] ∧
    convertToTextRequest_content (.arr [textElement "input_text" "hi"])
      ≠ .ok [{ Type_ := "text", Text := "hi", ImageURL := none }] := by
  refine ⟨by decide, by decide, by decide⟩

/-- C14, amended: for every map element whose `"type"` is a string other than
the image marker, either converter produces, without error, the item whose
kind is that type string unchanged (so not an image item), whose text is the
element's `"text"` when that is a string and the empty string when `"text"` is
absent or not a string. -/
theorem typed_element_item (contentMap : List (String × JValue)) (type_ : String)
    (ht : assertString (mapIndex contentMap "type") = some type_)
    (hni : type_ ≠ "input_image") :
    convertToTextRequest_content (.arr [.obj contentMap])
      = .ok [{ Type_ := type_, Text := elementText contentMap,
               ImageURL := elementImageURL contentMap }] ∧
    convertToMultiModalRequest_content (.arr [.obj contentMap])
      = .ok [{ Type_ := type_, Text := elementText contentMap,
               ImageURL := elementImageURL contentMap }] ∧
    isImageItem { Type_ := type_, Text := elementText contentMap,
                  ImageURL := elementImageURL contentMap } = false ∧
    (∀ s, mapIndex contentMap "text" = some (.str s) → elementText contentMap = s) ∧
    (mapIndex contentMap "text" = none → elementText contentMap = "") ∧
    ((∀ s, mapIndex contentMap "text" ≠ some (.str s)) → elementText contentMap = "") := by
  have hT : convertToTextRequest_content (.arr [.obj contentMap])
      = .ok [{ Type_ := type_, Text := elementText contentMap,
               ImageURL := elementImageURL contentMap }] := by
    simp only [convertToTextRequest_content, convertToTextRequest_items, item_eq, ht,
      List.nil_append]
  refine ⟨hT, ?_, ?_, ?_, ?_, ?_⟩
  · rw [multiModal_content_eq, hT]
  · simp [isImageItem, hni]
  · intro s hs
    simp [elementText, hs, assertString]
  · intro hn
    simp [elementText, hn, assertString]
  · intro hn
    unfold elementText
    cases hx : mapIndex contentMap "text" with
    | none => rfl
    | some v =>
      cases v with
      | str s => exact absurd hx (hn s)
      | null | bool | num | arr | obj => rfl

/-- Witness of the amended C14 on the element of type `"input_text"`. -/
theorem typed_element_item_witness :
    assertString (mapIndex [("type", .str "input_text"), ("text", .str "hi")] "type")
        = some "input_text" ∧
      "input_text" ≠ "input_image" ∧
      convertToTextRequest_content
          (.arr [.obj [("type", .str "input_text"), ("text", .str "hi")]])
        = .ok [{ Type_ := "input_text"
                 Text := elementText [("type", .str "input_text"), ("text", .str "hi")]
                 ImageURL :=
                   elementImageURL [("type", .str "input_text"), ("text", .str "hi")] }] :=
  ⟨by decide, by decide,
    (typed_element_item [("type", .str "input_text"), ("text", .str "hi")] "input_text"
      (by decide) (by decide)).1⟩

/-- C15: on the request whose single message holds a structured element
without a `"type"`, neither alternative holds: the two converters do not fail
with an error and do not succeed, both panic at the unchecked type
assertion. -/
theorem converters_panic_on_untyped_element :
    convertToTextRequest (some untypedElementRequest) "svc-large" (some sampleConfig)
      = .panic panicTypeAssertion ∧
    convertToMultiModalRequest (some untypedElementRequest) "svc-large" (some sampleConfig)
      = .panic panicTypeAssertion ∧
    ¬ ((∃ e,
          convertToTextRequest (some untypedElementRequest) "svc-large" (some sampleConfig)
            = .err e ∧
          convertToMultiModalRequest (some untypedElementRequest) "svc-large"
            (some sampleConfig) = .err e) ∨
        (∃ t m,
          convertToTextRequest (some untypedElementRequest) "svc-large" (some sampleConfig)
            = .ok t ∧
          convertToMultiModalRequest (some untypedElementRequest) "svc-large"
            (some sampleConfig) = .ok m ∧
          m.Messages = t.Messages ∧ m.AgentID = t.AgentID ∧ m.SecretKey = t.SecretKey ∧
          m.ServiceName = t.ServiceName ∧ m.Stream = t.Stream)) := by
  have hT : convertToTextRequest (some untypedElementRequest) "svc-large" (some sampleConfig)
      = .panic panicTypeAssertion := by decide
  have hM : convertToMultiModalRequest (some untypedElementRequest) "svc-large"
      (some sampleConfig) = .panic panicTypeAssertion := by decide
  refine ⟨hT, hM, ?_⟩
  rw [hT, hM]
  rintro (⟨e, he, _⟩ | ⟨t, m, ht, _⟩)
  · cases he
  · cases ht

/-- C16: when `ConvertOpenAIToPrivateAPI` succeeds, whatever the messages and
the shape selected, the result's agent id and secret key are the
configuration's `DefaultAgentID` and `DefaultSecretKey` and its stream flag is
the request's. -/
theorem convert_copies_credentials (req : OpenAIRequest) (cfg : Config)
    (r : PrivateAPIRequest)
    (h : ConvertOpenAIToPrivateAPI (some req) (some cfg) = .ok r) :
    r.agentID = cfg.DefaultAgentID ∧ r.secretKey = cfg.DefaultSecretKey ∧
      r.stream = req.Stream := by
  obtain ⟨_, _, _, _, ha, hs, hst⟩ := convert_ok_inv req cfg r h
  exact ⟨ha, hs, hst⟩

/-- Witness of C16 on the text-shaped sample. -/
theorem convert_copies_credentials_witness :
    ConvertOpenAIToPrivateAPI (some sampleTextRequest) (some sampleConfig)
        = .ok sampleTextResult ∧
      (sampleTextResult.agentID = sampleConfig.DefaultAgentID ∧
        sampleTextResult.secretKey = sampleConfig.DefaultSecretKey ∧
        sampleTextResult.stream = sampleTextRequest.Stream) :=
  ⟨by decide,
    convert_copies_credentials sampleTextRequest sampleConfig sampleTextResult (by decide)⟩

/-- C17, as stated, fails: `emptyContentRequest`, whose contents are the empty
array and an array without a map, is translated, and both produced messages
have an empty content list. -/
theorem empty_array_gives_empty_content :
    ConvertOpenAIToPrivateAPI (some emptyContentRequest) (some sampleConfig)
      = .ok emptyContentResult ∧
    emptyContentResult.messages.map (fun m => m.Content) = [[], []] := by
  refine ⟨by decide, by decide⟩

/-- C17, amended: when `ConvertOpenAIToPrivateAPI` succeeds, the content list
of every produced message has one item when the inbound content is a string
and one item per map element when it is an array; it is non-empty exactly when
the inbound content is a string or an array holding at least one map. -/
theorem produced_content_length (req : OpenAIRequest) (cfg : Config)
    (r : PrivateAPIRequest)
    (h : ConvertOpenAIToPrivateAPI (some req) (some cfg) = .ok r) :
    List.Forall₂
      (fun m o =>
        o.Content.length = normalizedLength m.Content ∧
        (o.Content ≠ [] ↔
          ((∃ s, m.Content = .str s) ∨
            ∃ items contentMap, m.Content = .arr items ∧ JValue.obj contentMap ∈ items)))
      req.Messages r.messages := by
  refine (convert_ok_forall₂ req cfg r h).imp (fun m o hmo => ?_)
  have hlen := content_ok_length m.Content o.Content hmo.2
  refine ⟨hlen, ?_⟩
  rw [← List.length_pos, hlen]
  cases hc : m.Content with
  | str s => simp [normalizedLength]
  | arr items =>
    simp only [normalizedLength, List.length_pos, false_or, reduceCtorEq, exists_false]
    constructor
    · intro hne
      obtain ⟨contentMap, hmem⟩ := List.exists_mem_of_ne_nil _ hne
      exact ⟨items, contentMap, rfl, (mem_filterMap_asObject items contentMap).mp hmem⟩
    · rintro ⟨items', contentMap, heq, hmem⟩
      cases heq
      exact List.ne_nil_of_mem ((mem_filterMap_asObject items contentMap).mpr hmem)
  | null | bool | num | obj =>
    rw [hc] at hmo
    simp [convertToTextRequest_content] at hmo

/-- Witness of the amended C17 on the request holding a string content and an
array of two maps. -/
theorem produced_content_length_witness :
    ConvertOpenAIToPrivateAPI (some sampleImageRequest) (some sampleConfig)
        = .ok sampleImageResult ∧
      sampleImageResult.messages.map (fun o => o.Content.length) = [1, 2] ∧
      List.Forall₂
        (fun m o =>
          o.Content.length = normalizedLength m.Content ∧
          (o.Content ≠ [] ↔
            ((∃ s, m.Content = .str s) ∨
              ∃ items contentMap, m.Content = .arr items ∧ JValue.obj contentMap ∈ items)))
        sampleImageRequest.Messages sampleImageResult.messages :=
  ⟨by decide, by decide,
    produced_content_length sampleImageRequest sampleConfig sampleImageResult (by decide)⟩

/-- C18, as stated, fails: the envelope written for the chunk of a frame
carries the key `usage`, bound to the usage block with every counter 0; the
block is not left out. -/
theorem stream_chunk_envelope_has_usage :
    mapIndex (envelopeBindings (streamChunk "sess-1" 1700000000 (sampleFrame "Hel"))) "usage"
      = some (.obj [ ("prompt_tokens", .num 0),
                     ("completion_tokens", .num 0),
                     ("total_tokens", .num 0),
                     ("prompt_tokens_details", .obj [("cached_tokens", .num 0)]),
                     ("prompt_cache_hit_tokens", .num 0),
                     ("prompt_cache_miss_tokens", .num 0) ]) ∧
    mapIndex (envelopeBindings (streamChunk "sess-1" 1700000000 (sampleFrame "Hel"))) "usage"
      ≠ none := by
  have h : mapIndex
      (envelopeBindings (streamChunk "sess-1" 1700000000 (sampleFrame "Hel"))) "usage"
      = some (.obj [ ("prompt_tokens", .num 0),
                     ("completion_tokens", .num 0),
                     ("total_tokens", .num 0),
                     ("prompt_tokens_details", .obj [("cached_tokens", .num 0)]),
                     ("prompt_cache_hit_tokens", .num 0),
                     ("prompt_cache_miss_tokens", .num 0) ]) := by rfl
  refine ⟨h, ?_⟩
  rw [h]
  exact fun hn => Option.noConfusion hn

/-- C18, amended: every chunk of the streaming relay sets only the delta of
its single choice: the object kind is `"chat.completion.chunk"`, the choice's
message is not set and its finish reason is nil, written as `null`; the usage
block is not computed, and it is still written in the envelope, with every
counter 0. The buffered reply is the one whose usage block is computed: its
prompt-token count is 13. -/
theorem stream_chunk_only_delta (sessionId id : String) (created now : Int)
    (privateResp : PrivateAPISSEResponse) :
    (streamChunk sessionId created privateResp).Object = "chat.completion.chunk" ∧
    (streamChunk sessionId created privateResp).Choices
      = [ { Index := 0
            Message := Message.zero
            Delta := { Content := privateResp.ResponseMessage }
            LogProbs := none
            FinishReason := none } ] ∧
    (streamChunk sessionId created privateResp).Usage = Usage.zero ∧
    mapIndex (envelopeBindings (streamChunk sessionId created privateResp)) "usage"
      = some (envelopeUsage Usage.zero) ∧
    (streamChunk sessionId created privateResp).Choices.map
        (fun c => envelopeStringPtr c.FinishReason)
      = [.null] ∧
    (bufferedReply id now privateResp).Usage.PromptTokens = 13 ∧
    (bufferedReply id now privateResp).Usage ≠ Usage.zero := by
  refine ⟨rfl, rfl, rfl, by rfl, by rfl, rfl, ?_⟩
  intro h
  have h13 := congrArg Usage.PromptTokens h
  revert h13
  simp [bufferedReply, Usage.zero]

/-- C19: for every reply text, the completion-token count of the buffered
reply is one more than the number of space characters of the text; so it is at
least 1 and the total is at least 14, and for the empty text the completion
count is 1 and the total is 14. -/
theorem completionTokens_one_plus_spaces (id : String) (now : Int)
    (privateResp : PrivateAPISSEResponse) :
    (bufferedReply id now privateResp).Usage.CompletionTokens
      = ((1 + privateResp.ResponseMessage.data.count ' ' : Nat) : Int) ∧
    1 ≤ (bufferedReply id now privateResp).Usage.CompletionTokens ∧
    14 ≤ (bufferedReply id now privateResp).Usage.TotalTokens ∧
    (bufferedReply id now { privateResp with ResponseMessage := "" }).Usage.CompletionTokens
      = 1 ∧
    (bufferedReply id now { privateResp with ResponseMessage := "" }).Usage.TotalTokens
      = 14 := by
  have hc := completionTokens_eq_count id now privateResp
  have ht : (bufferedReply id now privateResp).Usage.TotalTokens
      = 13 + (bufferedReply id now privateResp).Usage.CompletionTokens := rfl
  refine ⟨hc, ?_, ?_, ?_, ?_⟩
  · rw [hc]; omega
  · rw [ht, hc]; omega
  · rfl
  · rfl

/-- C20: when the normalization of an array content succeeds, in either
converter, the content list has exactly one item per map element of the array,
in the order of the elements, and the kind of each item is the string its
element binds to `"type"`, unchanged. Elements that are not maps are passed
over without an error: the result is that of the array of the map elements
alone, its length is the number of map elements, and the empty array gives the
empty list. -/
theorem array_content_one_item_per_object (items : List JValue)
    (out : List PrivateAPIContentItem)
    (h : convertToTextRequest_content (.arr items) = .ok out) :
    convertToMultiModalRequest_content (.arr items) = .ok out ∧
    out.length = (items.filterMap asObject).length ∧
    List.Forall₂
      (fun contentMap it => mapIndex contentMap "type" = some (.str it.Type_))
      (items.filterMap asObject) out ∧
    convertToTextRequest_content (.arr ((items.filterMap asObject).map JValue.obj))
      = .ok out ∧
    convertToTextRequest_content (.arr []) = .ok [] := by
  have hrel := content_arr_ok items out h
  refine ⟨?_, hrel.length_eq.symm, ?_, ?_, rfl⟩
  · rw [multiModal_content_eq, h]
  · exact hrel.imp (fun contentMap it hit =>
      (assertString_eq_some _ _).mp (item_ok_fields contentMap it hit).1)
  · simp only [convertToTextRequest_content] at h ⊢
    rw [← items_drop_non_objects items [], h]

/-- Witness of C20 on an array of a string, a text element, a number and an
image element: two items, in the order of the two maps. -/
theorem array_content_one_item_per_object_witness :
    convertToTextRequest_content (.arr mixedArray) = .ok mixedArrayItems ∧
      (convertToMultiModalRequest_content (.arr mixedArray) = .ok mixedArrayItems ∧
        mixedArrayItems.length = (mixedArray.filterMap asObject).length ∧
        List.Forall₂
          (fun contentMap it => mapIndex contentMap "type" = some (.str it.Type_))
          (mixedArray.filterMap asObject) mixedArrayItems ∧
        convertToTextRequest_content (.arr ((mixedArray.filterMap asObject).map JValue.obj))
          = .ok mixedArrayItems ∧
        convertToTextRequest_content (.arr []) = .ok []) :=
  ⟨by decide, array_content_one_item_per_object mixedArray mixedArrayItems (by decide)⟩

end SSEProxy
